import Mathlib

/-!
Verification of the ai-integrator provider-abstraction client.

This file gives a shallow embedding, in Lean, of the client's core layer:
the error taxonomy and per-provider error classifiers, the request
validator, the provider adapters' normalization functions, the tool
transformers, the retry engine, and the fallback orchestrator
(`src/core/client.ts`, `src/core/types.ts`, `src/providers/*.ts`,
`src/utils/retry.ts`, `src/utils/*-tool-transformer.ts`).  Asynchrony is
flattened: a vendor interaction is modelled as an oracle value (either a
raw vendor error or a vendor-shaped response), a provider's successive
upstream calls are indexed by a natural number, and wall-clock inputs
(`Date.now()`, `new Date()`) are explicit parameters.  Theorems about the
embedding settle the specification's claims.
-/

namespace AIIntegrator

/-- Model of a JSON value (the payloads JavaScript passes to
`JSON.stringify`): null, booleans, numbers (integral here), strings,
arrays and objects. -/
inductive JsonVal where
  | null
  | boolean (b : Bool)
  | num (n : Int)
  | str (s : String)
  | arr (elems : List JsonVal)
  | obj (fields : List (String × JsonVal))

/-- Escape of one character inside a JSON string literal (quote and
backslash; other characters are kept as-is). -/
def escapeJsonChar (c : Char) : String :=
  if c = '"' then "\\\"" else if c = '\\' then "\\\\" else String.singleton c

/-- Serialization of a string as a JSON string literal. -/
def stringifyStr (s : String) : String :=
  "\"" ++ String.join (s.data.map escapeJsonChar) ++ "\""

mutual

/-- Model of `JSON.stringify` on JSON values. -/
def stringify : JsonVal → String
  | .null => "null"
  | .boolean true => "true"
  | .boolean false => "false"
  | .num n => toString n
  | .str s => stringifyStr s
  | .arr xs => "[" ++ String.intercalate "," (stringifyElems xs) ++ "]"
  | .obj fs => "\x7b" ++ String.intercalate "," (stringifyFields fs) ++ "\x7d"

/-- Serialization of the elements of a JSON array. -/
def stringifyElems : List JsonVal → List String
  | [] => []
  | x :: xs => stringify x :: stringifyElems xs

/-- Serialization of the fields of a JSON object. -/
def stringifyFields : List (String × JsonVal) → List String
  | [] => []
  | (k, v) :: fs => (stringifyStr k ++ ":" ++ stringify v) :: stringifyFields fs

end

/-- A string is JSON-parseable when it is the `JSON.stringify` image of
some JSON value (so `JSON.parse` accepts it). -/
def JsonParseable (s : String) : Prop := ∃ v : JsonVal, stringify v = s

/-- Error taxonomy of `core/types.ts` (`enum ErrorType`). -/
inductive ErrorType where
  | authentication_error
  | rate_limit_error
  | invalid_request_error
  | api_error
  | timeout_error
  | network_error
  | unknown_error
deriving DecidableEq, Repr

/-- The structured error carrier `AIIntegratorError` of `core/types.ts`
(the wrapped `originalError` is dropped: nothing in the repository reads
it back). -/
structure AIIntegratorError where
  type : ErrorType
  message : String
  statusCode : Option Int
  provider : Option String
  retryable : Bool
deriving DecidableEq, Repr

/-- A thrown JavaScript value as the client observes it: either the
structured carrier, or a plain `Error` identified by its message. -/
inductive JSError where
  | structured (err : AIIntegratorError)
  | raw (message : String)
deriving DecidableEq, Repr

/-- The fields of a raw vendor error that the adapters' `handleError`
classifiers inspect: `error?.message`, `error?.status`,
`error?.response?.status`, `error?.code` and `error?.error?.message`. -/
structure RawError where
  message : Option String
  status : Option Int
  responseStatus : Option Int
  code : Option String
  errorMessage : Option String
deriving DecidableEq, Repr

/-- JavaScript `a || b` on an optional string `a` (absent or empty means
falsy) with a string fallback. -/
def jsOrStr (a : Option String) (b : String) : String :=
  match a with
  | some s => if s ≠ "" then s else b
  | none => b

/-- JavaScript `a || b` on two optional strings. -/
def jsOrOptStr (a : Option String) (b : Option String) : Option String :=
  match a with
  | some s => if s ≠ "" then some s else b
  | none => b

/-- JavaScript `error?.status || error?.response?.status` (a `0` status is
falsy and falls through). -/
def jsStatusOf (e : RawError) : Option Int :=
  match e.status with
  | some s => if s ≠ 0 then some s else e.responseStatus
  | none => e.responseStatus

/-- JavaScript `error?.message || 'Unknown error occurred'`. -/
def jsMessageOf (e : RawError) : String :=
  jsOrStr e.message "Unknown error occurred"

/-- JavaScript `statusCode >= 500` on a possibly-undefined status
(comparison with `undefined` is false). -/
def statusAtLeast500 (s : Option Int) : Bool :=
  match s with
  | some v => decide (500 ≤ v)
  | none => false

/-- Error classifier of `OpenAIProvider.handleError`
(`providers/openai.ts`). -/
def openaiHandleError (e : RawError) : AIIntegratorError :=
  let statusCode := jsStatusOf e
  if statusCode = some 401 then
    ⟨.authentication_error, "Invalid API key", statusCode, some "openai", false⟩
  else if statusCode = some 429 then
    ⟨.rate_limit_error, "Rate limit exceeded", statusCode, some "openai", true⟩
  else if statusCode = some 400 then
    ⟨.invalid_request_error, jsMessageOf e, statusCode, some "openai", false⟩
  else if statusAtLeast500 statusCode then
    ⟨.api_error, jsMessageOf e, statusCode, some "openai", true⟩
  else if e.code = some "ECONNABORTED" ∨ e.code = some "ETIMEDOUT" then
    ⟨.timeout_error, jsMessageOf e, statusCode, some "openai", true⟩
  else if e.code = some "ENOTFOUND" ∨ e.code = some "ECONNREFUSED" then
    ⟨.network_error, jsMessageOf e, statusCode, some "openai", true⟩
  else
    ⟨.api_error, jsMessageOf e, statusCode, some "openai", false⟩

/-- Error classifier of `AnthropicProvider.handleError`
(`providers/anthropic.ts`): identical chain to OpenAI's except that the
400 branch prefers `error?.error?.message` and the provider tag differs. -/
def anthropicHandleError (e : RawError) : AIIntegratorError :=
  let statusCode := jsStatusOf e
  if statusCode = some 401 then
    ⟨.authentication_error, "Invalid API key", statusCode, some "anthropic", false⟩
  else if statusCode = some 429 then
    ⟨.rate_limit_error, "Rate limit exceeded", statusCode, some "anthropic", true⟩
  else if statusCode = some 400 then
    ⟨.invalid_request_error, jsOrStr e.errorMessage (jsMessageOf e), statusCode, some "anthropic", false⟩
  else if statusAtLeast500 statusCode then
    ⟨.api_error, jsMessageOf e, statusCode, some "anthropic", true⟩
  else if e.code = some "ECONNABORTED" ∨ e.code = some "ETIMEDOUT" then
    ⟨.timeout_error, jsMessageOf e, statusCode, some "anthropic", true⟩
  else if e.code = some "ENOTFOUND" ∨ e.code = some "ECONNREFUSED" then
    ⟨.network_error, jsMessageOf e, statusCode, some "anthropic", true⟩
  else
    ⟨.api_error, jsMessageOf e, statusCode, some "anthropic", false⟩

/-- Lower-casing of a string, character by character
(`String.prototype.toLowerCase`). -/
def strLower (s : String) : String := ⟨s.data.map Char.toLower⟩

/-- JavaScript `s.includes(pat)`: `pat` occurs contiguously in `s`. -/
def strIncludes (s pat : String) : Bool := decide (pat.data <:+: s.data)

/-- Error classifier of `GeminiProvider.handleError`
(`providers/gemini.ts`): substring heuristics on the lower-cased message
first, then a status-code fallback. -/
def geminiHandleError (e : RawError) : AIIntegratorError :=
  let ml := strLower (match e.message with | some m => m | none => "")
  if strIncludes ml "api key" then
    ⟨.authentication_error, "Invalid API key", some 401, some "gemini", false⟩
  else if strIncludes ml "quota" ∨ strIncludes ml "rate limit" then
    ⟨.rate_limit_error, "Rate limit exceeded", some 429, some "gemini", true⟩
  else if strIncludes ml "invalid" then
    ⟨.invalid_request_error, jsMessageOf e, some 400, some "gemini", false⟩
  else if strIncludes ml "timeout" then
    ⟨.timeout_error, jsMessageOf e, none, some "gemini", true⟩
  else if strIncludes ml "network" ∨ strIncludes ml "fetch" then
    ⟨.network_error, jsMessageOf e, none, some "gemini", true⟩
  else
    let statusCode := jsStatusOf e
    match statusCode with
    | some s =>
      if s ≠ 0 then
        if 500 ≤ s then ⟨.api_error, jsMessageOf e, statusCode, some "gemini", true⟩
        else if s = 429 then ⟨.rate_limit_error, jsMessageOf e, statusCode, some "gemini", true⟩
        else ⟨.api_error, jsMessageOf e, statusCode, some "gemini", false⟩
      else ⟨.api_error, jsMessageOf e, statusCode, some "gemini", false⟩
    | none => ⟨.api_error, jsMessageOf e, none, some "gemini", false⟩

/-- Message roles of `core/types.ts` (`MessageRole`). -/
inductive Role where
  | system
  | user
  | assistant
  | function
  | tool
deriving DecidableEq, Repr

/-- Finish reasons of `ChatResponse.finish_reason` in `core/types.ts`
(nullability is `Option` at use sites). -/
inductive FinishReason where
  | stop
  | length
  | function_call
  | tool_calls
  | content_filter
deriving DecidableEq, Repr

/-- The `function` payload of a tool call: name plus the JSON-encoded
arguments string. -/
structure ToolCallFunction where
  name : String
  arguments : String
deriving DecidableEq, Repr

/-- A tool call emitted by the model (`ToolCall` in `core/types.ts`); the
`type` field is the literal string `"function"` in the unified shape. -/
structure ToolCall where
  id : String
  type : String
  function : ToolCallFunction
deriving DecidableEq, Repr

/-- One conversation turn (`Message` in `core/types.ts`); `content` is
`Option` because it is `null` when the turn carries only tool calls. -/
structure Message where
  role : Role
  content : Option String
  name : Option String
  function_call : Option ToolCallFunction
  tool_calls : Option (List ToolCall)
  tool_call_id : Option String
deriving DecidableEq, Repr

/-- A plain text message (all optional fields absent). -/
def textMessage (role : Role) (content : Option String) : Message :=
  ⟨role, content, none, none, none, none⟩

/-- Schema base types of `ToolParameterSchema.type`. -/
inductive SchemaType where
  | object
  | string
  | number
  | boolean
  | array
deriving DecidableEq, Repr

/-- The JSON-Schema subset `ToolParameterSchema` of `core/types.ts`. -/
inductive ToolParameterSchema where
  | mk (type : SchemaType)
       (description : Option String)
       (properties : Option (List (String × ToolParameterSchema)))
       (items : Option ToolParameterSchema)
       (required : Option (List String))
       (enumVals : Option (List JsonVal))
       (nullable : Option Bool)
       (format : Option String)

/-- The `function` payload of a unified tool definition. -/
structure ToolDefinitionFunction where
  name : String
  description : Option String
  parameters : ToolParameterSchema

/-- A unified tool definition (`ToolDefinition` in `core/types.ts`). -/
structure ToolDefinition where
  type : Option String
  function : ToolDefinitionFunction

/-- Tool-choice directive (`ToolChoice` in `core/types.ts`). -/
inductive ToolChoice where
  | auto
  | none
  | required
  | function (name : String)
deriving DecidableEq, Repr

/-- A unified chat request (`ChatRequest` in `core/types.ts`), restricted
to the fields the verified layer reads. -/
structure ChatRequest where
  model : String
  messages : List Message
  temperature : Option ℚ
  max_tokens : Option Int
  top_p : Option ℚ
  stop : List String
  functions : Option (List ToolDefinitionFunction)
  tools : Option (List ToolDefinition)
  tool_choice : Option ToolChoice

/-- Token usage counts (`Usage` in `core/types.ts`). -/
structure Usage where
  prompt_tokens : Nat
  completion_tokens : Nat
  total_tokens : Nat
deriving DecidableEq, Repr

/-- A normalized chat response (`ChatResponse` in `core/types.ts`);
`created_at` is a millisecond timestamp. -/
structure ChatResponse where
  id : String
  provider : String
  model : String
  message : Message
  finish_reason : Option FinishReason
  usage : Option Usage
  created_at : Int
deriving DecidableEq, Repr

/-- Partial `function` payload inside a streaming tool-call fragment. -/
structure StreamFunctionDelta where
  name : Option String
  arguments : Option String
deriving DecidableEq, Repr

/-- One indexed tool-call fragment inside a `StreamChunk` delta. -/
structure StreamToolCallDelta where
  index : Nat
  id : Option String
  type : Option String
  function : Option StreamFunctionDelta
deriving DecidableEq, Repr

/-- The `delta` of a streaming chunk (`StreamChunk.delta`). -/
structure StreamDelta where
  role : Option Role
  content : Option String
  function_call : Option StreamFunctionDelta
  tool_calls : Option (List StreamToolCallDelta)
deriving DecidableEq, Repr

/-- An empty delta (`delta: {}`). -/
def emptyStreamDelta : StreamDelta := ⟨none, none, none, none⟩

/-- A normalized streaming chunk (`StreamChunk` in `core/types.ts`). -/
structure StreamChunk where
  id : String
  provider : String
  model : String
  delta : StreamDelta
  finish_reason : Option FinishReason
deriving DecidableEq, Repr

/-- True when the request's temperature is present and outside `[0, 2]`
(`request.temperature !== undefined && (request.temperature < 0 ||
request.temperature > 2)`). -/
def tempInvalid (r : ChatRequest) : Bool :=
  match r.temperature with
  | some t => decide (t < 0) || decide (2 < t)
  | none => false

/-- True when the request's `max_tokens` is present and below 1. -/
def maxTokensInvalid (r : ChatRequest) : Bool :=
  match r.max_tokens with
  | some m => decide (m < 1)
  | none => false

/-- The shared request validator `BaseProvider.validateRequest`
(`providers/base.ts`), inherited unchanged by all three adapters.  It
returns the message of the plain `Error` it throws, or `none` when the
request passes. -/
def validateRequest (r : ChatRequest) : Option String :=
  if r.messages.isEmpty then some "Messages array cannot be empty"
  else if tempInvalid r then some "Temperature must be between 0 and 2"
  else if maxTokensInvalid r then some "max_tokens must be greater than 0"
  else none

/-- Anthropic wire shape of one tool (`name` / `description` /
`input_schema`). -/
structure AnthropicTool where
  name : String
  description : String
  input_schema : ToolParameterSchema

/-- Tool encoder `toAnthropicTools`
(`utils/anthropic-tool-transformer.ts`). -/
def toAnthropicTools (tools : List ToolDefinition) : List AnthropicTool :=
  tools.map fun t => ⟨t.function.name, jsOrStr t.function.description "", t.function.parameters⟩

/-- One content block of an Anthropic response (`text` or `tool_use`;
`other` stands for any further block type the filters skip). -/
inductive AnthropicBlock where
  | text (text : String)
  | tool_use (id : String) (name : String) (input : JsonVal)
  | other

/-- Tool decoder `fromAnthropicResponse`
(`utils/anthropic-tool-transformer.ts`): keep the `tool_use` blocks and
re-serialize each block's `input` object into an arguments string. -/
def fromAnthropicResponse (content : List AnthropicBlock) : List ToolCall :=
  content.filterMap fun b =>
    match b with
    | .tool_use i n input => some ⟨i, "function", ⟨n, stringify input⟩⟩
    | _ => none

/-- Gemini wire shape of one function declaration. -/
structure GeminiFunctionDeclaration where
  name : String
  description : String
  parameters : ToolParameterSchema

/-- Gemini tools envelope (one object holding `functionDeclarations`). -/
structure GeminiToolsEnvelope where
  functionDeclarations : List GeminiFunctionDeclaration

/-- Tool encoder `toGeminiFunctionDeclarations`
(`utils/gemini-tool-transformer.ts`). -/
def toGeminiFunctionDeclarations (tools : List ToolDefinition) : List GeminiToolsEnvelope :=
  [⟨tools.map fun t => ⟨t.function.name, jsOrStr t.function.description "", t.function.parameters⟩⟩]

/-- A `functionCall` payload inside a Gemini response part. -/
structure GeminiFunctionCall where
  name : String
  args : JsonVal

/-- One part of a Gemini response candidate; the filters test the
presence (JavaScript truthiness) of `text` and `functionCall`. -/
structure GeminiPart where
  text : Option String
  functionCall : Option GeminiFunctionCall

/-- Tool decoder `fromGeminiResponse`
(`utils/gemini-tool-transformer.ts`): keep the `functionCall` parts and
synthesize ids from the clock value `now` (`Date.now()`) and the index
within the filtered list. -/
def fromGeminiResponse (now : Int) (parts : List GeminiPart) : List ToolCall :=
  (parts.filterMap (fun p => p.functionCall)).enum.map fun pair =>
    ⟨"call_" ++ toString now ++ "_" ++ toString pair.1, "function",
      ⟨pair.2.name, stringify pair.2.args⟩⟩

/-- A tool call inside an OpenAI vendor message (fields the normalizer
copies). -/
structure OpenAIToolCall where
  id : String
  type : String
  function : ToolCallFunction
deriving DecidableEq, Repr

/-- An OpenAI vendor choice message. -/
structure OpenAIMessage where
  role : Role
  content : Option String
  tool_calls : Option (List OpenAIToolCall)
  function_call : Option ToolCallFunction
deriving DecidableEq, Repr

/-- One choice of an OpenAI vendor response. -/
structure OpenAIChoice where
  message : OpenAIMessage
  finish_reason : Option FinishReason
deriving DecidableEq, Repr

/-- An OpenAI vendor chat response (`created` is in seconds). -/
structure OpenAIResponse where
  id : String
  model : String
  choices : List OpenAIChoice
  usage : Option Usage
  created : Int
deriving DecidableEq, Repr

/-- Placeholder for `response.choices[0]` on an empty choices list (the
source would fault there; every vendor response carries a choice). -/
def defaultOpenAIChoice : OpenAIChoice :=
  ⟨⟨.assistant, none, none, none⟩, none⟩

/-- Response normalizer `OpenAIProvider.normalizeResponse`
(`providers/openai.ts`): copy the first choice's message and pass the
vendor `finish_reason` through unchanged. -/
def openaiNormalizeResponse (r : OpenAIResponse) : ChatResponse :=
  let choice := r.choices.headD defaultOpenAIChoice
  let message := choice.message
  { id := r.id
    provider := "openai"
    model := r.model
    message :=
      { role := message.role
        content := message.content
        name := none
        function_call := message.function_call
        tool_calls := message.tool_calls.map (List.map fun tc => ⟨tc.id, tc.type, tc.function⟩)
        tool_call_id := none }
    finish_reason := choice.finish_reason
    usage := r.usage.map fun u => ⟨u.prompt_tokens, u.completion_tokens, u.total_tokens⟩
    created_at := r.created * 1000 }

/-- The delta of an OpenAI vendor stream chunk choice. -/
structure OpenAIChunkDelta where
  role : Option Role
  content : Option String
  tool_calls : Option (List StreamToolCallDelta)
  function_call : Option StreamFunctionDelta
deriving DecidableEq, Repr

/-- One choice of an OpenAI vendor stream chunk. -/
structure OpenAIChunkChoice where
  delta : Option OpenAIChunkDelta
  finish_reason : Option FinishReason
deriving DecidableEq, Repr

/-- An OpenAI vendor stream chunk. -/
structure OpenAIChunk where
  id : String
  model : String
  choices : List OpenAIChunkChoice
deriving DecidableEq, Repr

/-- Stream normalizer `OpenAIProvider.normalizeStreamChunk`
(`providers/openai.ts`): `choices[0]?.delta || \x7b\x7d` then a field-wise
copy. -/
def openaiNormalizeStreamChunk (c : OpenAIChunk) : StreamChunk :=
  let choice := c.choices.head?
  let delta := ((choice.bind fun ch => ch.delta).getD ⟨none, none, none, none⟩)
  { id := c.id
    provider := "openai"
    model := c.model
    delta :=
      { role := delta.role
        content := delta.content
        function_call := delta.function_call
        tool_calls := delta.tool_calls.map (List.map fun tc => ⟨tc.index, tc.id, tc.type, tc.function⟩) }
    finish_reason := choice.bind fun ch => ch.finish_reason }

/-- Token usage of an Anthropic vendor response. -/
structure AnthropicUsage where
  input_tokens : Nat
  output_tokens : Nat
deriving DecidableEq, Repr

/-- An Anthropic vendor chat response. -/
structure AnthropicResponse where
  id : String
  model : String
  content : List AnthropicBlock
  stop_reason : Option String
  usage : AnthropicUsage

/-- Stop-reason mapper `AnthropicProvider.mapStopReason`. -/
def anthropicMapStopReason : Option String → Option FinishReason
  | some "end_turn" => some .stop
  | some "max_tokens" => some .length
  | some "stop_sequence" => some .stop
  | _ => none

/-- True for a `text` content block. -/
def AnthropicBlock.isText : AnthropicBlock → Bool
  | .text _ => true
  | _ => false

/-- True for a `tool_use` content block. -/
def AnthropicBlock.isToolUse : AnthropicBlock → Bool
  | .tool_use .. => true
  | _ => false

/-- Response normalizer `AnthropicProvider.normalizeResponse` in its
tool-aware form (the variant importing the Anthropic tool transformer):
first text block as content, tool calls decoded from `tool_use` blocks,
and `finish_reason` forced to `tool_calls` whenever a `tool_use` block is
present.  `now` stands for `new Date()`. -/
def anthropicNormalizeResponse (now : Int) (r : AnthropicResponse) : ChatResponse :=
  let textBlocks := r.content.filter AnthropicBlock.isText
  let toolBlocks := r.content.filter AnthropicBlock.isToolUse
  { id := r.id
    provider := "anthropic"
    model := r.model
    message :=
      { role := .assistant
        content :=
          match textBlocks.head? with
          | some (.text t) => some t
          | _ => none
        name := none
        function_call := none
        tool_calls := if toolBlocks.isEmpty then none else some (fromAnthropicResponse r.content)
        tool_call_id := none }
    finish_reason := if toolBlocks.isEmpty then anthropicMapStopReason r.stop_reason else some .tool_calls
    usage := some ⟨r.usage.input_tokens, r.usage.output_tokens,
                   r.usage.input_tokens + r.usage.output_tokens⟩
    created_at := now }

/-- The delta payload of an Anthropic stream event. -/
inductive AnthropicDelta where
  | text_delta (text : String)
  | input_json_delta (partial_json : String)
  | otherDelta

/-- An Anthropic vendor stream event (the four shapes the loop in
`chatStream` inspects). -/
inductive AnthropicEvent where
  | content_block_delta (index : Nat) (delta : AnthropicDelta)
  | content_block_start (index : Nat) (content_block : AnthropicBlock)
  | message_stop
  | otherEvent

/-- Chunks emitted for one Anthropic stream event by the tool-aware
`chatStream` loop.  `messageId` and `streamModel` stand for the
`message_id` and `model` properties read off the vendor stream object;
`reqModel` is `request.model || this.getDefaultModel()`. -/
def anthropicEventChunks (messageId streamModel : Option String) (reqModel : String) :
    AnthropicEvent → List StreamChunk
  | .content_block_delta i (.text_delta t) =>
      [{ id := jsOrStr messageId (jsOrStr (some (toString i)) "unknown")
         provider := "anthropic"
         model := jsOrStr streamModel "unknown"
         delta := { role := none, content := some t, function_call := none, tool_calls := none }
         finish_reason := none }]
  | .content_block_start i (.tool_use bid bname _) =>
      [{ id := jsOrStr messageId "unknown"
         provider := "anthropic"
         model := reqModel
         delta := { role := none, content := none, function_call := none,
                    tool_calls := some [⟨i, some bid, some "function", some ⟨some bname, some ""⟩⟩] }
         finish_reason := none }]
  | .content_block_delta i (.input_json_delta pj) =>
      [{ id := jsOrStr messageId "unknown"
         provider := "anthropic"
         model := reqModel
         delta := { role := none, content := none, function_call := none,
                    tool_calls := some [⟨i, none, none, some ⟨none, some pj⟩⟩] }
         finish_reason := none }]
  | .message_stop =>
      [{ id := jsOrStr messageId "unknown"
         provider := "anthropic"
         model := reqModel
         delta := emptyStreamDelta
         finish_reason := some .stop }]
  | _ => []

/-- The `content` object of a Gemini candidate (`parts` may be absent). -/
structure GeminiRespContent where
  parts : Option (List GeminiPart)

/-- One candidate of a Gemini vendor response or stream chunk (`content`
may be absent on chunks). -/
structure GeminiCandidate where
  content : Option GeminiRespContent
  finishReason : Option String

/-- Usage metadata of a Gemini vendor response. -/
structure GeminiUsageMetadata where
  promptTokenCount : Option Nat
  candidatesTokenCount : Option Nat
  totalTokenCount : Option Nat

/-- A Gemini vendor chat response. -/
structure GeminiResponse where
  candidates : List GeminiCandidate
  usageMetadata : Option GeminiUsageMetadata

/-- A Gemini vendor stream chunk. -/
structure GeminiChunk where
  candidates : List GeminiCandidate

/-- Finish-reason mapper `GeminiProvider.mapFinishReason`. -/
def geminiMapFinishReason : Option String → Option FinishReason
  | some "STOP" => some .stop
  | some "MAX_TOKENS" => some .length
  | some "SAFETY" => some .content_filter
  | _ => none

/-- JavaScript truthiness of `part.text` (absent or empty is falsy). -/
def geminiPartHasText (p : GeminiPart) : Bool :=
  match p.text with
  | some t => t != ""
  | none => false

/-- The parts list of the first candidate
(`candidates[0]?.content` / `content?.parts || []`). -/
def geminiFirstCandidateParts (candidates : List GeminiCandidate) : List GeminiPart :=
  (((candidates.head?).bind fun c => c.content).bind fun c => c.parts).getD []

/-- `candidate?.finishReason ? mapFinishReason(...) : undefined` (an empty
string reason is falsy). -/
def geminiChunkFinishReason (candidates : List GeminiCandidate) : Option FinishReason :=
  match (candidates.head?).bind fun c => c.finishReason with
  | some r => if r ≠ "" then geminiMapFinishReason (some r) else none
  | none => none

/-- Response normalizer `GeminiProvider.normalizeResponse` in its
tool-aware form (`providers/gemini.ts`): text from the first truthy text
part, tool calls decoded from `functionCall` parts, `finish_reason`
forced to `tool_calls` when a `functionCall` part is present.  `genId`
stands for the generated id and `now` for `Date.now()`. -/
def geminiNormalizeResponse (genId : String) (now : Int) (modelName : String)
    (r : GeminiResponse) : ChatResponse :=
  let parts := geminiFirstCandidateParts r.candidates
  let textParts := parts.filter geminiPartHasText
  let functionCalls := parts.filter fun p => p.functionCall.isSome
  { id := genId
    provider := "gemini"
    model := modelName
    message :=
      { role := .assistant
        content :=
          match textParts.head? with
          | some p => p.text
          | none => none
        name := none
        function_call := none
        tool_calls := if functionCalls.isEmpty then none else some (fromGeminiResponse now parts)
        tool_call_id := none }
    finish_reason :=
      if functionCalls.isEmpty then
        geminiMapFinishReason ((r.candidates.headD ⟨none, none⟩).finishReason)
      else some .tool_calls
    usage := r.usageMetadata.map fun u =>
      ⟨u.promptTokenCount.getD 0, u.candidatesTokenCount.getD 0, u.totalTokenCount.getD 0⟩
    created_at := now }

/-- Stream normalizer `GeminiProvider.normalizeStreamChunk` in its
tool-aware form. -/
def geminiNormalizeStreamChunk (genId : String) (now : Int) (modelName : String)
    (index : Nat) (c : GeminiChunk) : StreamChunk :=
  let parts := geminiFirstCandidateParts c.candidates
  let textParts := parts.filter geminiPartHasText
  let functionCalls := parts.filterMap fun p => p.functionCall
  { id := genId ++ "-" ++ toString index
    provider := "gemini"
    model := modelName
    delta :=
      { role := none
        content := textParts.head?.bind fun p => p.text
        function_call := none
        tool_calls :=
          if functionCalls.isEmpty then none
          else some (functionCalls.enum.map fun pair =>
            ⟨pair.1, some ("call_" ++ toString now ++ "_" ++ toString pair.1),
             some "function", some ⟨some pair.2.name, some (stringify pair.2.args)⟩⟩) }
    finish_reason := geminiChunkFinishReason c.candidates }

/-- Legacy (pre-tool) Gemini response normalizer: single text extraction
`content.parts[0]?.text || ''`, no tool calls, no forcing of
`finish_reason`. -/
def geminiLegacyNormalizeResponse (genId : String) (now : Int) (modelName : String)
    (r : GeminiResponse) : ChatResponse :=
  let text := jsOrStr ((geminiFirstCandidateParts r.candidates).head?.bind fun p => p.text) ""
  { id := genId
    provider := "gemini"
    model := modelName
    message := textMessage .assistant (some text)
    finish_reason := geminiMapFinishReason ((r.candidates.headD ⟨none, none⟩).finishReason)
    usage := r.usageMetadata.map fun u =>
      ⟨u.promptTokenCount.getD 0, u.candidatesTokenCount.getD 0, u.totalTokenCount.getD 0⟩
    created_at := now }

/-- Legacy (pre-tool) Gemini stream normalizer: text only, never any
tool-call fragment. -/
def geminiLegacyNormalizeStreamChunk (genId : String) (modelName : String)
    (index : Nat) (c : GeminiChunk) : StreamChunk :=
  let text := jsOrStr ((geminiFirstCandidateParts c.candidates).head?.bind fun p => p.text) ""
  { id := genId ++ "-" ++ toString index
    provider := "gemini"
    model := modelName
    delta := { role := none, content := some text, function_call := none, tool_calls := none }
    finish_reason := geminiChunkFinishReason c.candidates }

/-- A `functionResponse` part of a Gemini request.  The source parses the
tool message's content (`JSON.parse(msg.content || '\x7b\x7d')`) right at
the SDK boundary; the embedding keeps the JSON text it would parse. -/
structure GeminiReqFunctionResponse where
  name : String
  response : String
deriving DecidableEq, Repr

/-- A `functionCall` part of a Gemini request.  The source parses the
arguments (`JSON.parse(tc.function.arguments)`) at the SDK boundary; the
embedding keeps the JSON text. -/
structure GeminiReqFunctionCall where
  name : String
  args : String
deriving DecidableEq, Repr

/-- One part of a Gemini request content entry. -/
inductive GeminiReqPart where
  | text (text : Option String)
  | functionResponse (fr : GeminiReqFunctionResponse)
  | functionCall (fc : GeminiReqFunctionCall)
deriving DecidableEq, Repr

/-- One content entry of a Gemini request (`role` plus parts). -/
structure GeminiReqContent where
  role : String
  parts : List GeminiReqPart
deriving DecidableEq, Repr

/-- The joined system instruction shared by both Gemini converters and
the Anthropic converter: system messages' contents joined with blank
lines (`Array.prototype.join` renders a `null` entry as the empty
string), or absent when there is no system message. -/
def joinedSystem (msgs : List Message) : Option String :=
  let systemMessages := msgs.filter fun m => m.role = Role.system
  if systemMessages.isEmpty then none
  else some (String.intercalate "\n\n" (systemMessages.map fun m => m.content.getD ""))

/-- The `tool_call_id → function name` pairs collected by the tool-aware
Gemini converter (`toolCallMap`); reversed so that a lookup returns the
most recently inserted binding, as a JavaScript `Map` does. -/
def geminiToolCallPairs (msgs : List Message) : List (String × String) :=
  (msgs.flatMap fun m => (m.tool_calls.getD []).map fun tc => (tc.id, tc.function.name)).reverse

/-- Conversion of one non-system message by the tool-aware
`GeminiProvider.convertMessages`: tool responses become `functionResponse`
parts under role `user` (or throw when no function name can be found),
assistant tool calls become `functionCall` parts under role `model`, and
remaining messages become single text parts. -/
def geminiConvertOne (toolMap : List (String × String)) (msg : Message) :
    Except String GeminiReqContent :=
  if msg.role = Role.tool then
    match jsOrOptStr msg.name (msg.tool_call_id.bind fun i => toolMap.lookup i) with
    | none => .error "Tool response missing function name. Please include either 'name' or ensure the corresponding tool_call_id exists."
    | some n => .ok ⟨"user", [.functionResponse ⟨n, jsOrStr msg.content "\x7b\x7d"⟩]⟩
  else
    match msg.tool_calls with
    | some tcs =>
      let textPart : List GeminiReqPart :=
        match msg.content with
        | some c => if c ≠ "" then [.text (some c)] else []
        | none => []
      .ok ⟨"model", textPart ++ tcs.map fun tc => .functionCall ⟨tc.function.name, tc.function.arguments⟩⟩
    | none =>
      .ok ⟨if msg.role = Role.assistant then "model" else "user", [.text msg.content]⟩

/-- Message converter of the tool-aware `GeminiProvider.convertMessages`
(`providers/gemini.ts`). -/
def geminiConvertMessages (msgs : List Message) :
    Except String (Option String × List GeminiReqContent) :=
  let otherMessages := msgs.filter fun m => m.role ≠ Role.system
  let toolMap := geminiToolCallPairs otherMessages
  (otherMessages.mapM (geminiConvertOne toolMap)).map fun contents =>
    (joinedSystem msgs, contents)

/-- Message converter of the legacy (pre-tool) Gemini adapter: every
non-system message becomes one text part, with role `model` for assistant
turns and `user` for every other role. -/
def geminiLegacyConvertMessages (msgs : List Message) :
    Option String × List GeminiReqContent :=
  let otherMessages := msgs.filter fun m => m.role ≠ Role.system
  (joinedSystem msgs,
   otherMessages.map fun m =>
     ⟨if m.role = Role.assistant then "model" else "user", [.text m.content]⟩)

/-- Resolution of the model name: `request.model || defaultModel` (the
empty string falls back). -/
def resolveModel (reqModel : String) (dflt : String) : String :=
  if reqModel ≠ "" then reqModel else dflt

/-- `BaseProvider.getDefaultModel`: the configured default, else the
adapter's hardcoded one. -/
def getDefaultModel (configDefault : Option String) (providerDefault : String) : String :=
  jsOrStr configDefault providerDefault

/-- Adapter pipeline of `OpenAIProvider.chat`: validation outside the
`try` (a failure escapes as a plain `Error`), then the vendor phase inside
the `try` (any failure there is classified by `handleError`), then
normalization.  `vendor` is the oracle for SDK initialization plus the
upstream call; the returned flag records whether that phase was entered. -/
def openaiChat (req : ChatRequest) (vendor : Except RawError OpenAIResponse) :
    Except JSError ChatResponse × Bool :=
  match validateRequest req with
  | some m => (.error (.raw m), false)
  | none =>
    match vendor with
    | .error e => (.error (.structured (openaiHandleError e)), true)
    | .ok r => (.ok (openaiNormalizeResponse r), true)

/-- Adapter pipeline of `OpenAIProvider.chatStream` (same shape; the
vendor oracle yields the native chunk sequence). -/
def openaiChatStream (req : ChatRequest) (vendor : Except RawError (List OpenAIChunk)) :
    Except JSError (List StreamChunk) × Bool :=
  match validateRequest req with
  | some m => (.error (.raw m), false)
  | none =>
    match vendor with
    | .error e => (.error (.structured (openaiHandleError e)), true)
    | .ok cs => (.ok (cs.map openaiNormalizeStreamChunk), true)

/-- Adapter pipeline of the tool-aware `AnthropicProvider.chat`. -/
def anthropicChat (now : Int) (req : ChatRequest)
    (vendor : Except RawError AnthropicResponse) :
    Except JSError ChatResponse × Bool :=
  match validateRequest req with
  | some m => (.error (.raw m), false)
  | none =>
    match vendor with
    | .error e => (.error (.structured (anthropicHandleError e)), true)
    | .ok r => (.ok (anthropicNormalizeResponse now r), true)

/-- Adapter pipeline of the tool-aware `AnthropicProvider.chatStream`:
each vendor event maps to zero or one normalized chunk. -/
def anthropicChatStream (configDefault : Option String) (messageId streamModel : Option String)
    (req : ChatRequest) (vendor : Except RawError (List AnthropicEvent)) :
    Except JSError (List StreamChunk) × Bool :=
  match validateRequest req with
  | some m => (.error (.raw m), false)
  | none =>
    match vendor with
    | .error e => (.error (.structured (anthropicHandleError e)), true)
    | .ok evs =>
      let reqModel := resolveModel req.model (getDefaultModel configDefault "claude-3-5-sonnet-20241022")
      (.ok (evs.flatMap (anthropicEventChunks messageId streamModel reqModel)), true)

/-- Adapter pipeline of the tool-aware `GeminiProvider.chat`: validation,
then (inside the `try`) SDK initialization, message conversion — whose
plain-`Error` throw is caught by the same `catch` and classified — the
vendor call, and normalization. -/
def geminiChat (genId : String) (now : Int) (configDefault : Option String)
    (req : ChatRequest) (vendor : Except RawError GeminiResponse) :
    Except JSError ChatResponse × Bool :=
  match validateRequest req with
  | some m => (.error (.raw m), false)
  | none =>
    match geminiConvertMessages req.messages with
    | .error m => (.error (.structured (geminiHandleError ⟨some m, none, none, none, none⟩)), true)
    | .ok _ =>
      match vendor with
      | .error e => (.error (.structured (geminiHandleError e)), true)
      | .ok r =>
        let modelName := resolveModel req.model (getDefaultModel configDefault "gemini-2.0-flash-exp")
        (.ok (geminiNormalizeResponse genId now modelName r), true)

/-- Adapter pipeline of the tool-aware `GeminiProvider.chatStream`
(chunks are normalized with a running index). -/
def geminiChatStream (genId : String) (now : Int) (configDefault : Option String)
    (req : ChatRequest) (vendor : Except RawError (List GeminiChunk)) :
    Except JSError (List StreamChunk) × Bool :=
  match validateRequest req with
  | some m => (.error (.raw m), false)
  | none =>
    match geminiConvertMessages req.messages with
    | .error m => (.error (.structured (geminiHandleError ⟨some m, none, none, none, none⟩)), true)
    | .ok _ =>
      match vendor with
      | .error e => (.error (.structured (geminiHandleError e)), true)
      | .ok cs =>
        let modelName := resolveModel req.model (getDefaultModel configDefault "gemini-2.0-flash-exp")
        (.ok (cs.enum.map fun pair => geminiNormalizeStreamChunk genId now modelName pair.1 pair.2), true)

/-- Retry configuration (`RetryConfig` in `core/types.ts`); delays are
rationals so fractional backoff multipliers are representable. -/
structure RetryConfig where
  maxRetries : Nat
  initialDelay : ℚ
  maxDelay : ℚ
  backoffMultiplier : ℚ
deriving DecidableEq, Repr

/-- A caller-supplied `Partial<RetryConfig>`. -/
structure RetryConfigPartial where
  maxRetries : Option Nat
  initialDelay : Option ℚ
  maxDelay : Option ℚ
  backoffMultiplier : Option ℚ
deriving DecidableEq, Repr

/-- A wholly-absent partial configuration (the `\x7b\x7d` default). -/
def emptyRetryConfig : RetryConfigPartial := ⟨none, none, none, none⟩

/-- `DEFAULT_RETRY_CONFIG` of `utils/retry.ts`. -/
def DEFAULT_RETRY_CONFIG : RetryConfig :=
  { maxRetries := 3, initialDelay := 1000, maxDelay := 60000, backoffMultiplier := 2 }

/-- The spread merge `\x7b...DEFAULT_RETRY_CONFIG, ...config\x7d`: each
present field of the partial configuration overrides the default. -/
def mergeRetryConfig (c : RetryConfigPartial) : RetryConfig :=
  { maxRetries := c.maxRetries.getD DEFAULT_RETRY_CONFIG.maxRetries
    initialDelay := c.initialDelay.getD DEFAULT_RETRY_CONFIG.initialDelay
    maxDelay := c.maxDelay.getD DEFAULT_RETRY_CONFIG.maxDelay
    backoffMultiplier := c.backoffMultiplier.getD DEFAULT_RETRY_CONFIG.backoffMultiplier }

/-- `calculateDelay` of `utils/retry.ts`:
`min(initialDelay * backoffMultiplier ^ attempt, maxDelay)`. -/
def calculateDelay (attempt : Nat) (config : RetryConfig) : ℚ :=
  min (config.initialDelay * config.backoffMultiplier ^ attempt) config.maxDelay

/-- The default `isRetryable` predicate of `retry`: always true. -/
def isRetryableDefault : JSError → Bool := fun _ => true

/-- The retry decision of `utils/retry.ts` lines 44-46: a structured
error retries by its own `retryable` flag, any other error by the
caller-supplied predicate. -/
def retryPolicy (isRetryable : JSError → Bool) : JSError → Bool
  | .structured e => e.retryable
  | .raw m => isRetryable (.raw m)

/-- Outcome of a `retry` run: the settled result, the number of calls
made to `fn`, and the backoff delays slept between calls, in order. -/
structure RetryResult (α : Type) where
  result : Except JSError α
  calls : Nat
  delays : List ℚ
deriving Repr

/-- The attempt loop of `retry` (`utils/retry.ts` lines 37-57).  The
function under retry is indexed by the attempt number (its call count so
far).  `fuel` is `maxRetries - attempt`, so the loop guard
`attempt >= maxRetries` is exactly `fuel = 0`; a failed attempt retries
only when the policy allows it and fuel remains, sleeping
`calculateDelay attempt` in between, and otherwise rethrows the last
error unchanged. -/
def retryLoop (fn : Nat → Except JSError α) (isRetryable : JSError → Bool)
    (config : RetryConfig) : Nat → Nat → RetryResult α
  | attempt, fuel =>
    match fn attempt with
    | .ok v => ⟨.ok v, 1, []⟩
    | .error e =>
      if retryPolicy isRetryable e then
        match fuel with
        | 0 => ⟨.error e, 1, []⟩
        | fuel + 1 =>
          let rest := retryLoop fn isRetryable config (attempt + 1) fuel
          ⟨rest.result, rest.calls + 1, calculateDelay attempt config :: rest.delays⟩
      else ⟨.error e, 1, []⟩

/-- `retry` of `utils/retry.ts`: merge the partial configuration with the
defaults and run the attempt loop from attempt 0. -/
def retry (fn : Nat → Except JSError α) (config : RetryConfigPartial)
    (isRetryable : JSError → Bool) : RetryResult α :=
  let retryConfig := mergeRetryConfig config
  retryLoop fn isRetryable retryConfig 0 retryConfig.maxRetries

/-- A provider as the orchestrator sees it: an identifier (`type`) and a
call-indexed chat behaviour (the index counts this provider's upstream
calls within one orchestrated `chat`). -/
structure Provider where
  id : String
  behavior : Nat → Except JSError ChatResponse

/-- One fallback entry of the client configuration: a provider plus its
optional priority. -/
structure FallbackEntry where
  provider : Provider
  priority : Option Int

/-- `a.priority || 0` as used by the constructor's comparator. -/
def priorityKey (f : FallbackEntry) : Int := f.priority.getD 0

/-- The constructor's stable ascending sort of the fallback entries by
`priority || 0` (`config.fallbacks.sort((a, b) => ...)`). -/
def sortedFallbackEntries (l : List FallbackEntry) : List FallbackEntry :=
  List.insertionSort (fun a b => priorityKey a ≤ priorityKey b) l

/-- The fallback providers in the order the client will try them. -/
def sortFallbacks (l : List FallbackEntry) : List Provider :=
  (sortedFallbackEntries l).map fun f => f.provider

/-- Classification at the orchestrator (`client.ts` lines 136-145): a
structured error is kept as-is, any other error is wrapped into an
`unknown_error` carrier tagged with the current provider. -/
def classifyError (p : Provider) : JSError → AIIntegratorError
  | .structured e => e
  | .raw m => ⟨.unknown_error, m, none, some p.id, false⟩

/-- The defensive error thrown if the provider loop ever fell through
(`client.ts` line 171). -/
def allProvidersFailedError : AIIntegratorError :=
  ⟨.unknown_error, "All providers failed", none, none, false⟩

/-- Outcome of an orchestrated `chat`: the settled result plus, per
provider tried and in order, its identifier and its number of upstream
calls. -/
structure ChatOutcome where
  result : Except AIIntegratorError ChatResponse
  calls : List (String × Nat)
deriving Repr

/-- The provider loop of `AIClient.chat` (`client.ts` lines 114-172),
without a client-level timeout (`config.timeout` unset, so each provider
is wrapped in plain `retry` with the default predicate).  On failure the
classified error becomes `lastError`; the loop rethrows it on the last
provider, continues to the next provider when the error is non-retryable
and fallbacks exist, rethrows when there are no fallbacks, and otherwise
(retry budget exhausted on a retryable error) also continues.
`hasFallbacks` mirrors `this.fallbackProviders.length > 0`, constant over
the loop. -/
def chatGo (hasFallbacks : Bool) (config : RetryConfigPartial) :
    List Provider → ChatOutcome
  | [] => ⟨.error allProvidersFailedError, []⟩
  | p :: rest =>
    let r := retry p.behavior config isRetryableDefault
    match r.result with
    | .ok resp => ⟨.ok resp, [(p.id, r.calls)]⟩
    | .error e =>
      let lastError := classifyError p e
      if rest.isEmpty then ⟨.error lastError, [(p.id, r.calls)]⟩
      else if lastError.retryable = false ∧ hasFallbacks then
        let o := chatGo hasFallbacks config rest
        ⟨o.result, (p.id, r.calls) :: o.calls⟩
      else if hasFallbacks = false then ⟨.error lastError, [(p.id, r.calls)]⟩
      else
        let o := chatGo hasFallbacks config rest
        ⟨o.result, (p.id, r.calls) :: o.calls⟩

/-- `AIClient.chat` over a configured primary and fallback list: the
constructor sorts the fallbacks ascending by priority, and the loop walks
`[primary, ...fallbacks]`. -/
def clientChat (primary : Provider) (fallbacks : List FallbackEntry)
    (config : RetryConfigPartial) : ChatOutcome :=
  let fps := sortFallbacks fallbacks
  chatGo (!fps.isEmpty) config (primary :: fps)

/-- The classified error a failing provider contributes as `lastError`
(what the caller receives when that provider is the last tried). -/
def providerFinalError (config : RetryConfigPartial) (p : Provider) : AIIntegratorError :=
  match (retry p.behavior config isRetryableDefault).result with
  | .error e => classifyError p e
  | .ok _ => allProvidersFailedError

/-! ### Properties of the retry engine -/

theorem retryLoop_calls_pos (fn : Nat → Except JSError α) (p : JSError → Bool)
    (cfg : RetryConfig) : ∀ (f a : Nat), 1 ≤ (retryLoop fn p cfg a f).calls := by
  intro f
  induction f with
  | zero =>
    intro a
    rw [retryLoop]
    cases h : fn a with
    | ok v => simp
    | error e => by_cases hp : retryPolicy p e <;> simp [hp]
  | succ g ih =>
    intro a
    rw [retryLoop]
    cases h : fn a with
    | ok v => simp
    | error e => by_cases hp : retryPolicy p e <;> simp [hp]

theorem retryLoop_calls_le (fn : Nat → Except JSError α) (p : JSError → Bool)
    (cfg : RetryConfig) : ∀ (f a : Nat), (retryLoop fn p cfg a f).calls ≤ f + 1 := by
  intro f
  induction f with
  | zero =>
    intro a
    rw [retryLoop]
    cases h : fn a with
    | ok v => simp
    | error e => by_cases hp : retryPolicy p e <;> simp [hp]
  | succ g ih =>
    intro a
    rw [retryLoop]
    cases h : fn a with
    | ok v => simp
    | error e =>
      by_cases hp : retryPolicy p e
      · simp only [hp, if_true]
        have := ih (a + 1)
        simp
        omega
      · simp [hp]

theorem retryLoop_ok (fn : Nat → Except JSError α) (p : JSError → Bool)
    (cfg : RetryConfig) : ∀ (f a : Nat) (v : α),
    (retryLoop fn p cfg a f).result = .ok v →
    fn (a + (retryLoop fn p cfg a f).calls - 1) = .ok v := by
  intro f
  induction f with
  | zero =>
    intro a v
    rw [retryLoop]
    cases h : fn a with
    | ok w => intro hr; simp at hr ⊢; simpa [hr] using h
    | error e => by_cases hp : retryPolicy p e <;> simp [hp]
  | succ g ih =>
    intro a v
    rw [retryLoop]
    cases h : fn a with
    | ok w => intro hr; simp at hr ⊢; simpa [hr] using h
    | error e =>
      by_cases hp : retryPolicy p e <;> simp [hp]
      intro hr
      have := ih (a + 1) v hr
      have harith : a + 1 + (retryLoop fn p cfg (a + 1) g).calls - 1
          = a + ((retryLoop fn p cfg (a + 1) g).calls + 1) - 1 := by omega
      rw [harith] at this
      exact this

theorem retryLoop_error (fn : Nat → Except JSError α) (p : JSError → Bool)
    (cfg : RetryConfig) : ∀ (f a : Nat) (e : JSError),
    (retryLoop fn p cfg a f).result = .error e →
    fn (a + (retryLoop fn p cfg a f).calls - 1) = .error e ∧
      (retryPolicy p e = false ∨ (retryLoop fn p cfg a f).calls = f + 1) := by
  intro f
  induction f with
  | zero =>
    intro a e
    rw [retryLoop]
    cases h : fn a with
    | ok w => simp
    | error e0 =>
      by_cases hp : retryPolicy p e0 <;> simp [hp] <;> intro hr <;> subst hr <;>
        simp [h, hp]
  | succ g ih =>
    intro a e
    rw [retryLoop]
    cases h : fn a with
    | ok w => simp
    | error e0 =>
      by_cases hp : retryPolicy p e0 <;> simp [hp]
      · intro hr
        have := ih (a + 1) e hr
        have harith : a + 1 + (retryLoop fn p cfg (a + 1) g).calls - 1
            = a + ((retryLoop fn p cfg (a + 1) g).calls + 1) - 1 := by omega
        rw [harith] at this
        refine ⟨this.1, ?_⟩
        rcases this.2 with hc | hc
        · exact Or.inl hc
        · exact Or.inr (by omega)
      · intro hr; subst hr; simp [h, hp]

theorem retryLoop_prior (fn : Nat → Except JSError α) (p : JSError → Bool)
    (cfg : RetryConfig) : ∀ (f a j : Nat),
    j + 1 < (retryLoop fn p cfg a f).calls →
    ∃ e, fn (a + j) = .error e ∧ retryPolicy p e = true := by
  intro f
  induction f with
  | zero =>
    intro a j hj
    have := retryLoop_calls_le fn p cfg 0 a
    omega
  | succ g ih =>
    intro a j
    rw [retryLoop]
    cases h : fn a with
    | ok w => simp
    | error e0 =>
      by_cases hp : retryPolicy p e0
      · simp only [hp, if_true]
        intro hj
        cases j with
        | zero => exact ⟨e0, by simpa using h, hp⟩
        | succ j0 =>
          have hj2 : j0 + 1 < (retryLoop fn p cfg (a + 1) g).calls := by
            simp at hj
            omega
          have := ih (a + 1) j0 hj2
          rcases this with ⟨e, he, hpe⟩
          exact ⟨e, by rw [show a + (j0 + 1) = a + 1 + j0 by omega]; exact he, hpe⟩
      · simp [hp]

theorem retryLoop_delays (fn : Nat → Except JSError α) (p : JSError → Bool)
    (cfg : RetryConfig) : ∀ (f a j : Nat), j < (retryLoop fn p cfg a f).delays.length →
    (retryLoop fn p cfg a f).delays.getD j 0 = calculateDelay (a + j) cfg := by
  intro f
  induction f with
  | zero =>
    intro a j h
    exfalso
    revert h
    rw [retryLoop]
    cases hfa : fn a with
    | ok w => simp
    | error e0 => by_cases hp : retryPolicy p e0 <;> simp [hp]
  | succ g ih =>
    intro a j
    rw [retryLoop]
    cases hfa : fn a with
    | ok w => simp
    | error e0 =>
      by_cases hp : retryPolicy p e0
      · simp only [hp, if_true]
        cases j with
        | zero => intro h; simp
        | succ j0 =>
          intro h
          simp only [List.getD_cons_succ]
          have := ih (a + 1) j0 (by simpa using h)
          rw [show a + 1 + j0 = a + (j0 + 1) by omega] at this
          exact this
      · simp [hp]

/-- C3.  `retry` makes between 1 and `maxRetries + 1` calls; every
non-final call failed with an error the retry decision accepts (a
structured error retries iff its `retryable` flag is set, any other error
iff the caller-supplied predicate says so, and the default predicate
accepts everything); a success returns `fn`'s value; on failure the error
thrown is the last error `fn` threw, unchanged, and the run stopped
either because the decision refused or because the budget was exhausted.
In particular a function failing with a retryable error twice and then
succeeding is called exactly 3 times and its success value is returned. -/
theorem C3_retry_contract (fn : Nat → Except JSError α) (config : RetryConfigPartial)
    (isRetryable : JSError → Bool) :
    (1 ≤ (retry fn config isRetryable).calls ∧
      (retry fn config isRetryable).calls ≤ (mergeRetryConfig config).maxRetries + 1) ∧
    (∀ j, j + 1 < (retry fn config isRetryable).calls →
      ∃ e, fn j = .error e ∧ retryPolicy isRetryable e = true) ∧
    (∀ a, retryPolicy isRetryable (.structured a) = a.retryable) ∧
    (∀ m, retryPolicy isRetryable (.raw m) = isRetryable (.raw m)) ∧
    (∀ e, isRetryableDefault e = true) ∧
    (∀ v, (retry fn config isRetryable).result = .ok v →
      fn ((retry fn config isRetryable).calls - 1) = .ok v) ∧
    (∀ e, (retry fn config isRetryable).result = .error e →
      fn ((retry fn config isRetryable).calls - 1) = .error e ∧
        (retryPolicy isRetryable e = false ∨
          (retry fn config isRetryable).calls = (mergeRetryConfig config).maxRetries + 1)) ∧
    (∀ (β : Type) (v : β) (err : AIIntegratorError), err.retryable = true →
      retry (fun k => if k < 2 then Except.error (JSError.structured err) else Except.ok v)
          emptyRetryConfig isRetryableDefault
        = ⟨.ok v, 3, [1000, 2000]⟩) := by
  refine ⟨⟨retryLoop_calls_pos fn isRetryable _ _ 0, retryLoop_calls_le fn isRetryable _ _ 0⟩,
    fun j hj => by simpa using retryLoop_prior fn isRetryable _ _ 0 j hj,
    fun a => rfl, fun m => rfl, fun e => rfl,
    fun v hv => by simpa using retryLoop_ok fn isRetryable _ _ 0 v hv,
    fun e he => by simpa using retryLoop_error fn isRetryable _ _ 0 e he,
    fun β v err herr => ?_⟩
  show retryLoop _ _ _ 0 (mergeRetryConfig emptyRetryConfig).maxRetries = _
  norm_num [mergeRetryConfig, emptyRetryConfig, DEFAULT_RETRY_CONFIG, retryLoop, retryPolicy,
    herr, calculateDelay, min_def]

/-- Witness for C3 at a concrete function: two retryable failures then
success yields exactly 3 calls and the success value 42, with backoff
delays 1000 ms and 2000 ms. -/
theorem C3_retry_contract_witness :
    retry (fun k => if k < 2
        then Except.error (JSError.structured ⟨.api_error, "boom", some 500, some "openai", true⟩)
        else Except.ok (42 : Nat))
      emptyRetryConfig isRetryableDefault = ⟨.ok 42, 3, [1000, 2000]⟩ :=
  (C3_retry_contract (fun _ => Except.ok 0) emptyRetryConfig
    isRetryableDefault).2.2.2.2.2.2.2 Nat 42
    ⟨.api_error, "boom", some 500, some "openai", true⟩ rfl

/-- C7.  The delay slept before retry attempt `k` (1-indexed) is
`min(initialDelay * backoffMultiplier ^ (k-1), maxDelay)`, and every
omitted configuration field takes its default (`maxRetries` 3,
`initialDelay` 1000 ms, `maxDelay` 60000 ms, `backoffMultiplier` 2). -/
theorem C7_backoff_delays (fn : Nat → Except JSError α) (config : RetryConfigPartial)
    (isRetryable : JSError → Bool) :
    (∀ (k : Nat), k - 1 < (retry fn config isRetryable).delays.length → 1 ≤ k →
      (retry fn config isRetryable).delays.getD (k - 1) 0
        = min ((mergeRetryConfig config).initialDelay
                * (mergeRetryConfig config).backoffMultiplier ^ (k - 1))
              (mergeRetryConfig config).maxDelay) ∧
    mergeRetryConfig emptyRetryConfig = ⟨3, 1000, 60000, 2⟩ ∧
    (∀ c : RetryConfigPartial,
      (mergeRetryConfig c).maxRetries = c.maxRetries.getD 3 ∧
      (mergeRetryConfig c).initialDelay = c.initialDelay.getD 1000 ∧
      (mergeRetryConfig c).maxDelay = c.maxDelay.getD 60000 ∧
      (mergeRetryConfig c).backoffMultiplier = c.backoffMultiplier.getD 2) := by
  refine ⟨fun k h hk => ?_, rfl, fun c => ⟨rfl, rfl, rfl, rfl⟩⟩
  have := retryLoop_delays fn isRetryable (mergeRetryConfig config)
    (mergeRetryConfig config).maxRetries 0 (k - 1) h
  simpa [calculateDelay] using this

/-- A behaviour that always fails with a retryable server error (used by
witnesses). -/
def alwaysFail500 : Nat → Except JSError ChatResponse :=
  fun _ => Except.error (JSError.structured ⟨.api_error, "boom", some 500, some "openai", true⟩)

/-- Witness for C7: a provider failing with retryable errors under the
default configuration sleeps `min(1000 * 2^0, 60000)` before its first
retry. -/
theorem C7_backoff_delays_witness :
    1 - 1 < (retry alwaysFail500 emptyRetryConfig isRetryableDefault).delays.length ∧
    (retry alwaysFail500 emptyRetryConfig isRetryableDefault).delays.getD (1 - 1) 0
      = min ((mergeRetryConfig emptyRetryConfig).initialDelay
              * (mergeRetryConfig emptyRetryConfig).backoffMultiplier ^ (1 - 1))
            (mergeRetryConfig emptyRetryConfig).maxDelay := by
  have hlen : 1 - 1 < (retry alwaysFail500 emptyRetryConfig
      isRetryableDefault).delays.length := by
    norm_num [retry, retryLoop, retryPolicy, mergeRetryConfig, emptyRetryConfig,
      DEFAULT_RETRY_CONFIG, alwaysFail500]
  exact ⟨hlen, (C7_backoff_delays alwaysFail500 emptyRetryConfig isRetryableDefault).1 1 hlen le_rfl⟩

/-! ### Properties of the fallback orchestrator -/

theorem retry_allfail (fn : Nat → Except JSError ChatResponse) (config : RetryConfigPartial)
    (pred : JSError → Bool) (h : ∀ k, ∃ e, fn k = .error e) :
    ∃ e, (retry fn config pred).result = .error e := by
  cases hres : (retry fn config pred).result with
  | error e => exact ⟨e, rfl⟩
  | ok v =>
    exfalso
    have h2 : (retryLoop fn pred (mergeRetryConfig config) 0
        (mergeRetryConfig config).maxRetries).result = .ok v := hres
    have := retryLoop_ok fn pred (mergeRetryConfig config)
      (mergeRetryConfig config).maxRetries 0 v h2
    rcases h _ with ⟨e, he⟩
    rw [this] at he
    exact Except.noConfusion he

instance : IsTotal FallbackEntry (fun a b => priorityKey a ≤ priorityKey b) :=
  ⟨fun a b => le_total (priorityKey a) (priorityKey b)⟩

instance : IsTrans FallbackEntry (fun a b => priorityKey a ≤ priorityKey b) :=
  ⟨fun _ _ _ hab hbc => le_trans hab hbc⟩

theorem chatGo_allfail (config : RetryConfigPartial) :
    ∀ (rest : List Provider) (p : Provider) (hf : Bool),
    (rest = [] ∨ hf = true) →
    (∀ q ∈ p :: rest, ∀ k, ∃ e, q.behavior k = .error e) →
    chatGo hf config (p :: rest)
      = ⟨.error (providerFinalError config ((p :: rest).getLast (List.cons_ne_nil p rest))),
         (p :: rest).map fun q => (q.id, (retry q.behavior config isRetryableDefault).calls)⟩ := by
  intro rest
  induction rest with
  | nil =>
    intro p hf _ hfail
    rcases retry_allfail p.behavior config isRetryableDefault (hfail p (by simp)) with ⟨e, he⟩
    rw [chatGo]
    simp only [he, providerFinalError, List.isEmpty_nil, if_true, List.getLast_singleton,
      List.map_cons, List.map_nil]
  | cons q rest2 ih =>
    intro p hf hc hfail
    have hf2 : hf = true := by
      rcases hc with h | h
      · exact absurd h (by simp)
      · exact h
    subst hf2
    rcases retry_allfail p.behavior config isRetryableDefault (hfail p (by simp)) with ⟨e, he⟩
    have hrec := ih q true (Or.inr rfl) (fun r hr k => hfail r (by simp [hr]) k)
    rw [chatGo]
    simp only [he]
    have hlast : ((p :: q :: rest2).getLast (List.cons_ne_nil p (q :: rest2)))
        = ((q :: rest2).getLast (List.cons_ne_nil q rest2)) := by
      simp [List.getLast_cons]
    by_cases hr : (classifyError p e).retryable = false
    · simp only [List.isEmpty_cons, hr, true_and, if_false, if_true, Bool.true_eq_false,
        and_true, ite_true, ite_false, Bool.false_eq_true]
      rw [hrec]
      simp [hlast]
    · simp only [List.isEmpty_cons, hr, false_and, if_false, Bool.true_eq_false,
        ite_false, Bool.false_eq_true]
      rw [hrec]
      simp [hlast]

theorem providerFinalError_provider (config : RetryConfigPartial) (p : Provider)
    (hfail : ∀ k, ∃ e, p.behavior k = .error e)
    (hown : ∀ k a, p.behavior k = .error (.structured a) → a.provider = some p.id) :
    (providerFinalError config p).provider = some p.id := by
  rcases retry_allfail p.behavior config isRetryableDefault hfail with ⟨e, he⟩
  rw [providerFinalError]
  rw [he]
  cases e with
  | structured a =>
    have h2 : (retryLoop p.behavior isRetryableDefault (mergeRetryConfig config) 0
        (mergeRetryConfig config).maxRetries).result = .error (.structured a) := he
    have hlast := retryLoop_error p.behavior isRetryableDefault (mergeRetryConfig config)
      (mergeRetryConfig config).maxRetries 0 (.structured a) h2
    have := hown _ a (by simpa using hlast.1)
    simpa [classifyError] using this
  | raw m => simp [classifyError]

/-- C1.  When every configured provider fails, the orchestrator attempts
each provider exactly once (one retry-wrapped hop each), in order primary
first and then the fallbacks ascending by priority, regardless of the
errors' retryability; the error finally thrown is the last-tried
provider's classified error, and — provided each adapter tags its
structured errors with its own identifier, as all built-in classifiers do
— that error's `provider` field is the last-tried provider's identifier. -/
theorem C1_all_fail_last_provider_error (primary : Provider) (fallbacks : List FallbackEntry)
    (config : RetryConfigPartial)
    (hfail : ∀ p ∈ primary :: sortFallbacks fallbacks, ∀ k, ∃ e, p.behavior k = .error e)
    (hown : ∀ p ∈ primary :: sortFallbacks fallbacks, ∀ k a,
        p.behavior k = .error (.structured a) → a.provider = some p.id) :
    (clientChat primary fallbacks config).calls
        = (primary :: sortFallbacks fallbacks).map
            (fun p => (p.id, (retry p.behavior config isRetryableDefault).calls)) ∧
    List.Sorted (fun a b => priorityKey a ≤ priorityKey b) (sortedFallbackEntries fallbacks) ∧
    (clientChat primary fallbacks config).result
        = .error (providerFinalError config
            ((primary :: sortFallbacks fallbacks).getLast
              (List.cons_ne_nil primary (sortFallbacks fallbacks)))) ∧
    (providerFinalError config
        ((primary :: sortFallbacks fallbacks).getLast
          (List.cons_ne_nil primary (sortFallbacks fallbacks)))).provider
      = some ((primary :: sortFallbacks fallbacks).getLast
          (List.cons_ne_nil primary (sortFallbacks fallbacks))).id := by
  have hc : sortFallbacks fallbacks = [] ∨ (!(sortFallbacks fallbacks).isEmpty) = true := by
    cases hfb : sortFallbacks fallbacks with
    | nil => exact Or.inl rfl
    | cons x xs => simp
  have hgo := chatGo_allfail config (sortFallbacks fallbacks) primary
    (!(sortFallbacks fallbacks).isEmpty) hc hfail
  have hclient : clientChat primary fallbacks config
      = chatGo (!(sortFallbacks fallbacks).isEmpty) config (primary :: sortFallbacks fallbacks) := rfl
  have hlastmem : (primary :: sortFallbacks fallbacks).getLast
      (List.cons_ne_nil primary (sortFallbacks fallbacks)) ∈ primary :: sortFallbacks fallbacks :=
    List.getLast_mem _
  refine ⟨?_, ?_, ?_, ?_⟩
  · rw [hclient, hgo]
  · exact List.sorted_insertionSort _ fallbacks
  · rw [hclient, hgo]
  · exact providerFinalError_provider config _ (hfail _ hlastmem) (hown _ hlastmem)

/-- A provider that always fails like an OpenAI adapter hitting HTTP 401
(classified: authentication, non-retryable). -/
def wOpenAI401 : Provider :=
  ⟨"openai", fun _ => .error (.structured (openaiHandleError ⟨some "Unauthorized", some 401, none, none, none⟩))⟩

/-- A provider that always fails like an Anthropic adapter hitting HTTP
503 (classified: api_error, retryable). -/
def wAnthropic503 : Provider :=
  ⟨"anthropic", fun _ => .error (.structured (anthropicHandleError ⟨some "Server boom", some 503, none, none, none⟩))⟩

/-- Witness for C1: a 401-failing primary and a 503-failing fallback are
each attempted once (1 upstream call, then 4 — the 503 is retried), and
the thrown error is the fallback's classified error, tagged
`anthropic`. -/
theorem C1_all_fail_last_provider_error_witness :
    (clientChat wOpenAI401 [⟨wAnthropic503, some 1⟩] emptyRetryConfig).calls
        = [("openai", 1), ("anthropic", 4)] ∧
    (clientChat wOpenAI401 [⟨wAnthropic503, some 1⟩] emptyRetryConfig).result
        = .error (anthropicHandleError ⟨some "Server boom", some 503, none, none, none⟩) ∧
    (anthropicHandleError ⟨some "Server boom", some 503, none, none, none⟩).provider
        = some "anthropic" := by
  have hfail : ∀ p ∈ wOpenAI401 :: sortFallbacks [⟨wAnthropic503, some 1⟩], ∀ k,
      ∃ e, p.behavior k = .error e := by
    intro p hp k
    have hp2 : p = wOpenAI401 ∨ p = wAnthropic503 := by
      simpa [sortFallbacks, sortedFallbackEntries] using hp
    rcases hp2 with rfl | rfl
    · exact ⟨_, rfl⟩
    · exact ⟨_, rfl⟩
  have hown : ∀ p ∈ wOpenAI401 :: sortFallbacks [⟨wAnthropic503, some 1⟩], ∀ k a,
      p.behavior k = .error (.structured a) → a.provider = some p.id := by
    intro p hp k a ha
    have hp2 : p = wOpenAI401 ∨ p = wAnthropic503 := by
      simpa [sortFallbacks, sortedFallbackEntries] using hp
    rcases hp2 with rfl | rfl
    · simp only [wOpenAI401] at ha
      cases ha
      rfl
    · simp only [wAnthropic503] at ha
      cases ha
      rfl
  obtain ⟨hcalls, _, hres, hprov⟩ := C1_all_fail_last_provider_error wOpenAI401
    [⟨wAnthropic503, some 1⟩] emptyRetryConfig hfail hown
  refine ⟨?_, ?_, ?_⟩
  · rw [hcalls]
    simp [wOpenAI401, wAnthropic503, retry, retryLoop, retryPolicy, mergeRetryConfig,
      emptyRetryConfig, DEFAULT_RETRY_CONFIG, openaiHandleError, anthropicHandleError,
      jsStatusOf, statusAtLeast500, sortFallbacks, sortedFallbackEntries]
  · rw [hres]
    simp [providerFinalError, retry, retryLoop, retryPolicy, mergeRetryConfig,
      emptyRetryConfig, DEFAULT_RETRY_CONFIG, wAnthropic503, sortFallbacks,
      sortedFallbackEntries, classifyError, anthropicHandleError, jsStatusOf, statusAtLeast500]
  · simpa [sortFallbacks, sortedFallbackEntries, wAnthropic503] using hprov

/-- C2.  A primary whose chat always fails with a non-retryable
structured error plus a single succeeding fallback: exactly one upstream
call to each, the fallback's response is returned immediately, and its
`provider` field (set by the adapter) is the fallback's identifier. -/
theorem C2_nonretryable_fallback (primary fb : Provider) (prio : Option Int)
    (config : RetryConfigPartial) (resp : ChatResponse)
    (hprim : ∀ k, ∃ a, primary.behavior k = .error (.structured a) ∧ a.retryable = false)
    (hfb : fb.behavior 0 = .ok resp)
    (hresp : resp.provider = fb.id) :
    clientChat primary [⟨fb, prio⟩] config = ⟨.ok resp, [(primary.id, 1), (fb.id, 1)]⟩ ∧
    resp.provider = fb.id := by
  refine ⟨?_, hresp⟩
  have hsort : sortFallbacks [⟨fb, prio⟩] = [fb] := rfl
  have hclient : clientChat primary [⟨fb, prio⟩] config
      = chatGo true config [primary, fb] := by
    rw [clientChat, hsort]
    rfl
  rcases hprim 0 with ⟨a, ha, har⟩
  have hretryP : retry primary.behavior config isRetryableDefault
      = ⟨.error (.structured a), 1, []⟩ := by
    show retryLoop _ _ _ 0 (mergeRetryConfig config).maxRetries = _
    rw [retryLoop]
    simp [ha, retryPolicy, har]
  have hretryF : retry fb.behavior config isRetryableDefault = ⟨.ok resp, 1, []⟩ := by
    show retryLoop _ _ _ 0 (mergeRetryConfig config).maxRetries = _
    rw [retryLoop]
    simp [hfb]
  rw [hclient, chatGo]
  simp only [hretryP]
  rw [chatGo]
  simp [hretryF, classifyError, har]

/-- A fallback provider that always succeeds with a fixed response tagged
`anthropic`. -/
def wAnthropicOk : Provider :=
  ⟨"anthropic", fun _ => .ok ⟨"resp-1", "anthropic", "claude", textMessage .assistant (some "Fallback successful!"), some .stop, none, 0⟩⟩

/-- Witness for C2: a 401-failing primary with one succeeding fallback
makes exactly one call to each and returns the fallback's response. -/
theorem C2_nonretryable_fallback_witness :
    clientChat wOpenAI401 [⟨wAnthropicOk, none⟩] emptyRetryConfig
      = ⟨.ok ⟨"resp-1", "anthropic", "claude", textMessage .assistant (some "Fallback successful!"), some .stop, none, 0⟩,
         [("openai", 1), ("anthropic", 1)]⟩ := by
  have h := C2_nonretryable_fallback wOpenAI401 wAnthropicOk none emptyRetryConfig
    ⟨"resp-1", "anthropic", "claude", textMessage .assistant (some "Fallback successful!"), some .stop, none, 0⟩
    (fun k => ⟨openaiHandleError ⟨some "Unauthorized", some 401, none, none, none⟩, rfl, rfl⟩)
    rfl rfl
  exact h.1

/-! ### Error classification (C4) -/

/-- The lower-cased message the Gemini classifier matches against. -/
def geminiMsgLower (e : RawError) : String :=
  strLower (match e.message with | some m => m | none => "")

/-- A vendor error matching none of the classification cases: no status,
no code, a message without any of Gemini's substrings. -/
def rawBoom : RawError := ⟨some "boom", none, none, none, none⟩

/-- An HTTP 401 vendor error whose message carries none of Gemini's
substrings. -/
def rawBoom401 : RawError := ⟨some "boom", some 401, none, none, none⟩

/-- Counterexample to C4.  An error matching none of the cases is
classified `api_error` (not `unknown_error`) by the OpenAI adapter, and
the Gemini adapter does not classify by HTTP status: a 401 with a generic
message yields `api_error`, not `authentication_error`. -/
theorem C4_counterexample_classification :
    (openaiHandleError rawBoom).type = ErrorType.api_error ∧
    (openaiHandleError rawBoom).retryable = false ∧
    ErrorType.api_error ≠ ErrorType.unknown_error ∧
    (geminiHandleError rawBoom401).type = ErrorType.api_error ∧
    (geminiHandleError rawBoom401).retryable = false ∧
    ErrorType.api_error ≠ ErrorType.authentication_error := by
  refine ⟨rfl, rfl, by decide, by decide, by decide, by decide⟩

/-- C4 as amended.  OpenAI and Anthropic classify by status then code:
401 → authentication (non-retryable), 429 → rate-limit (retryable),
400 → invalid-request (non-retryable), ≥500 → api_error (retryable),
abort/timeout codes → timeout (retryable), connection-refused/DNS codes →
network (retryable), and — unlike the claim — anything else is
`api_error` with `retryable = false`, not `unknown_error`.  Gemini
instead matches message substrings first and only then falls back to
status codes (429 → rate-limit retryable, ≥500 → retryable `api_error`),
defaulting to non-retryable `api_error`. -/
theorem C4_amended_error_classification (e : RawError) :
    ((jsStatusOf e = some 401 →
       (openaiHandleError e).type = .authentication_error ∧ (openaiHandleError e).retryable = false ∧
       (anthropicHandleError e).type = .authentication_error ∧ (anthropicHandleError e).retryable = false) ∧
     (jsStatusOf e = some 429 →
       (openaiHandleError e).type = .rate_limit_error ∧ (openaiHandleError e).retryable = true ∧
       (anthropicHandleError e).type = .rate_limit_error ∧ (anthropicHandleError e).retryable = true) ∧
     (jsStatusOf e = some 400 →
       (openaiHandleError e).type = .invalid_request_error ∧ (openaiHandleError e).retryable = false ∧
       (anthropicHandleError e).type = .invalid_request_error ∧ (anthropicHandleError e).retryable = false) ∧
     (statusAtLeast500 (jsStatusOf e) = true →
       (openaiHandleError e).type = .api_error ∧ (openaiHandleError e).retryable = true ∧
       (anthropicHandleError e).type = .api_error ∧ (anthropicHandleError e).retryable = true) ∧
     (jsStatusOf e ≠ some 401 → jsStatusOf e ≠ some 429 → jsStatusOf e ≠ some 400 →
      statusAtLeast500 (jsStatusOf e) = false →
       (((e.code = some "ECONNABORTED" ∨ e.code = some "ETIMEDOUT") →
         (openaiHandleError e).type = .timeout_error ∧ (openaiHandleError e).retryable = true ∧
         (anthropicHandleError e).type = .timeout_error ∧ (anthropicHandleError e).retryable = true) ∧
        (e.code ≠ some "ECONNABORTED" → e.code ≠ some "ETIMEDOUT" →
         (e.code = some "ENOTFOUND" ∨ e.code = some "ECONNREFUSED") →
         (openaiHandleError e).type = .network_error ∧ (openaiHandleError e).retryable = true ∧
         (anthropicHandleError e).type = .network_error ∧ (anthropicHandleError e).retryable = true) ∧
        (e.code ≠ some "ECONNABORTED" → e.code ≠ some "ETIMEDOUT" →
         e.code ≠ some "ENOTFOUND" → e.code ≠ some "ECONNREFUSED" →
         (openaiHandleError e).type = .api_error ∧ (openaiHandleError e).retryable = false ∧
         (anthropicHandleError e).type = .api_error ∧ (anthropicHandleError e).retryable = false)))) ∧
    ((strIncludes (geminiMsgLower e) "api key" = true →
       (geminiHandleError e).type = .authentication_error ∧ (geminiHandleError e).retryable = false) ∧
     (strIncludes (geminiMsgLower e) "api key" = false →
      (strIncludes (geminiMsgLower e) "quota" = true ∨ strIncludes (geminiMsgLower e) "rate limit" = true) →
       (geminiHandleError e).type = .rate_limit_error ∧ (geminiHandleError e).retryable = true) ∧
     (strIncludes (geminiMsgLower e) "api key" = false →
      strIncludes (geminiMsgLower e) "quota" = false →
      strIncludes (geminiMsgLower e) "rate limit" = false →
      strIncludes (geminiMsgLower e) "invalid" = true →
       (geminiHandleError e).type = .invalid_request_error ∧ (geminiHandleError e).retryable = false) ∧
     (strIncludes (geminiMsgLower e) "api key" = false →
      strIncludes (geminiMsgLower e) "quota" = false →
      strIncludes (geminiMsgLower e) "rate limit" = false →
      strIncludes (geminiMsgLower e) "invalid" = false →
      strIncludes (geminiMsgLower e) "timeout" = true →
       (geminiHandleError e).type = .timeout_error ∧ (geminiHandleError e).retryable = true) ∧
     (strIncludes (geminiMsgLower e) "api key" = false →
      strIncludes (geminiMsgLower e) "quota" = false →
      strIncludes (geminiMsgLower e) "rate limit" = false →
      strIncludes (geminiMsgLower e) "invalid" = false →
      strIncludes (geminiMsgLower e) "timeout" = false →
      (strIncludes (geminiMsgLower e) "network" = true ∨ strIncludes (geminiMsgLower e) "fetch" = true) →
       (geminiHandleError e).type = .network_error ∧ (geminiHandleError e).retryable = true) ∧
     (strIncludes (geminiMsgLower e) "api key" = false →
      strIncludes (geminiMsgLower e) "quota" = false →
      strIncludes (geminiMsgLower e) "rate limit" = false →
      strIncludes (geminiMsgLower e) "invalid" = false →
      strIncludes (geminiMsgLower e) "timeout" = false →
      strIncludes (geminiMsgLower e) "network" = false →
      strIncludes (geminiMsgLower e) "fetch" = false →
       ((statusAtLeast500 (jsStatusOf e) = true →
          (geminiHandleError e).type = .api_error ∧ (geminiHandleError e).retryable = true) ∧
        (jsStatusOf e = some 429 →
          (geminiHandleError e).type = .rate_limit_error ∧ (geminiHandleError e).retryable = true) ∧
        (statusAtLeast500 (jsStatusOf e) = false → jsStatusOf e ≠ some 429 →
          (geminiHandleError e).type = .api_error ∧ (geminiHandleError e).retryable = false)))) := by
  constructor
  · refine ⟨fun h => ?_, fun h => ?_, fun h => ?_, fun h => ?_,
      fun h401 h429 h400 h500 => ⟨fun hcode => ?_, fun hc1 hc2 hcode => ?_,
        fun hc1 hc2 hc3 hc4 => ?_⟩⟩
    · constructor
      · simp [openaiHandleError, h]
      · constructor
        · simp [openaiHandleError, h]
        · constructor <;> simp [anthropicHandleError, h]
    · refine ⟨?_, ?_, ?_, ?_⟩ <;>
        simp [openaiHandleError, anthropicHandleError, h]
    · refine ⟨?_, ?_, ?_, ?_⟩ <;>
        simp [openaiHandleError, anthropicHandleError, h]
    · rcases hs : jsStatusOf e with _ | s
      · rw [hs] at h
        simp [statusAtLeast500] at h
      · rw [hs] at h
        simp only [statusAtLeast500, decide_eq_true_eq] at h
        have h401 : s ≠ 401 := by omega
        have h429 : s ≠ 429 := by omega
        have h400 : s ≠ 400 := by omega
        refine ⟨?_, ?_, ?_, ?_⟩ <;>
          simp [openaiHandleError, anthropicHandleError, hs, h401, h429, h400,
            statusAtLeast500, h]
    · rcases hcode with hc | hc <;>
        refine ⟨?_, ?_, ?_, ?_⟩ <;>
          simp [openaiHandleError, anthropicHandleError, h401, h429, h400, h500, hc]
    · rcases hcode with hc | hc <;>
        refine ⟨?_, ?_, ?_, ?_⟩ <;>
          simp [openaiHandleError, anthropicHandleError, h401, h429, h400, h500,
            hc1, hc2, hc]
    · refine ⟨?_, ?_, ?_, ?_⟩ <;>
        simp [openaiHandleError, anthropicHandleError, h401, h429, h400, h500,
          hc1, hc2, hc3, hc4]
  · have hml : strLower (match e.message with | some m => m | none => "") = geminiMsgLower e := rfl
    refine ⟨fun h => ?_, fun h1 h => ?_, fun h1 h2 h3 h => ?_, fun h1 h2 h3 h4 h => ?_,
      fun h1 h2 h3 h4 h5 h => ?_, fun h1 h2 h3 h4 h5 h6 h7 => ⟨fun h => ?_, fun h => ?_,
        fun h hs429 => ?_⟩⟩
    · constructor <;> simp [geminiHandleError, hml, h]
    · rcases h with h | h <;> constructor <;> simp [geminiHandleError, hml, h1, h]
    · constructor <;> simp [geminiHandleError, hml, h1, h2, h3, h]
    · constructor <;> simp [geminiHandleError, hml, h1, h2, h3, h4, h]
    · rcases h with h | h <;> constructor <;>
        simp [geminiHandleError, hml, h1, h2, h3, h4, h5, h]
    · rcases hs : jsStatusOf e with _ | s
      · rw [hs] at h
        simp [statusAtLeast500] at h
      · rw [hs] at h
        simp only [statusAtLeast500, decide_eq_true_eq] at h
        have hs0 : s ≠ 0 := by omega
        constructor <;>
          simp [geminiHandleError, hml, h1, h2, h3, h4, h5, h6, h7, hs, hs0, h]
    · rcases hs : jsStatusOf e with _ | s
      · rw [hs] at h
        exact absurd h (by simp)
      · rw [hs] at h
        have hs429 : s = 429 := by simpa using h
        subst hs429
        constructor <;>
          simp [geminiHandleError, hml, h1, h2, h3, h4, h5, h6, h7, hs]
    · rcases hs : jsStatusOf e with _ | s
      · constructor <;>
          simp [geminiHandleError, hml, h1, h2, h3, h4, h5, h6, h7, hs]
      · rw [hs] at h hs429
        simp only [statusAtLeast500, decide_eq_true_eq] at h
        have hne : s ≠ 429 := by
          intro hcon
          exact hs429 (by rw [hcon])
        have hlt : ¬ (500 ≤ s) := by
          intro hcon
          simp [hcon] at h
        by_cases hs0 : s = 0
        · subst hs0
          constructor <;>
            simp [geminiHandleError, hml, h1, h2, h3, h4, h5, h6, h7, hs]
        · constructor <;>
            simp [geminiHandleError, hml, h1, h2, h3, h4, h5, h6, h7, hs, hs0, hne, hlt]

/-- Witness for C4 (amended) at concrete errors: a 429 is rate-limit and
retryable for OpenAI, and a Gemini error whose message contains
"quota" is rate-limit and retryable. -/
theorem C4_amended_error_classification_witness :
    (openaiHandleError ⟨some "Too many requests", some 429, none, none, none⟩).type
        = ErrorType.rate_limit_error ∧
    (openaiHandleError ⟨some "Too many requests", some 429, none, none, none⟩).retryable = true ∧
    (geminiHandleError ⟨some "Quota exceeded", none, none, none, none⟩).type
        = ErrorType.rate_limit_error ∧
    (geminiHandleError ⟨some "Quota exceeded", none, none, none, none⟩).retryable = true := by
  have h1 := (C4_amended_error_classification
    ⟨some "Too many requests", some 429, none, none, none⟩).1.2.1 (by decide)
  have h2 := (C4_amended_error_classification
    ⟨some "Quota exceeded", none, none, none, none⟩).2.2.1 (by decide) (Or.inl (by decide))
  exact ⟨h1.1, h1.2.1, h2.1, h2.2⟩

/-! ### Error wrapping at the adapter boundary (C5) and finish-reason
forcing (C6) -/

/-- A request with an empty messages list. -/
def reqEmptyMessages : ChatRequest :=
  ⟨"gpt-4o-mini", [], none, none, none, [], none, none, none⟩

/-- A well-formed request with one user message. -/
def reqValid : ChatRequest :=
  ⟨"gpt-4o-mini", [textMessage .user (some "Hello")], none, none, none, [], none, none, none⟩

/-- A minimal successful OpenAI vendor response. -/
def okOpenAIResp : OpenAIResponse :=
  ⟨"r", "gpt", [⟨⟨.assistant, some "hi", none, none⟩, some .stop⟩], none, 0⟩

/-- True when a result carries the structured error carrier. -/
def isStructuredResult (r : Except JSError ChatResponse) : Bool :=
  match r with
  | .error (.structured _) => true
  | _ => false

/-- Counterexample to C5.  On an empty messages list the error escaping
`OpenAIProvider.chat` is the plain validation `Error`, not an
`AIIntegratorError`: `validateRequest` runs outside the adapter's
`try`/`catch`. -/
theorem C5_counterexample_unwrapped_validation :
    (openaiChat reqEmptyMessages (.ok okOpenAIResp)).1
        = .error (.raw "Messages array cannot be empty") ∧
    isStructuredResult (openaiChat reqEmptyMessages (.ok okOpenAIResp)).1 = false := by
  exact ⟨rfl, rfl⟩

/-- C5 as amended.  Once validation passes, every error escaping an
adapter's chat or chatStream — lazy SDK initialization, the vendor call,
or (for Gemini) message conversion — is a structured `AIIntegratorError`;
but a request failing validation escapes as the plain validation `Error`,
unwrapped, before any vendor interaction. -/
theorem C5_amended_error_wrapping (req : ChatRequest) :
    (validateRequest req = none →
      (∀ v e, (openaiChat req v).1 = .error e → ∃ a, e = .structured a) ∧
      (∀ v e, (openaiChatStream req v).1 = .error e → ∃ a, e = .structured a) ∧
      (∀ now v e, (anthropicChat now req v).1 = .error e → ∃ a, e = .structured a) ∧
      (∀ cd mi sm v e, (anthropicChatStream cd mi sm req v).1 = .error e → ∃ a, e = .structured a) ∧
      (∀ g now cd v e, (geminiChat g now cd req v).1 = .error e → ∃ a, e = .structured a) ∧
      (∀ g now cd v e, (geminiChatStream g now cd req v).1 = .error e → ∃ a, e = .structured a)) ∧
    (∀ m, validateRequest req = some m →
      (∀ v, (openaiChat req v).1 = .error (.raw m)) ∧
      (∀ v, (openaiChatStream req v).1 = .error (.raw m)) ∧
      (∀ now v, (anthropicChat now req v).1 = .error (.raw m)) ∧
      (∀ cd mi sm v, (anthropicChatStream cd mi sm req v).1 = .error (.raw m)) ∧
      (∀ g now cd v, (geminiChat g now cd req v).1 = .error (.raw m)) ∧
      (∀ g now cd v, (geminiChatStream g now cd req v).1 = .error (.raw m))) := by
  constructor
  · intro h
    refine ⟨fun v e hv => ?_, fun v e hv => ?_, fun now v e hv => ?_,
      fun cd mi sm v e hv => ?_, fun g now cd v e hv => ?_, fun g now cd v e hv => ?_⟩
    · cases v with
      | error er =>
        simp [openaiChat, h] at hv
        exact ⟨_, hv.symm⟩
      | ok r => simp [openaiChat, h] at hv
    · cases v with
      | error er =>
        simp [openaiChatStream, h] at hv
        exact ⟨_, hv.symm⟩
      | ok r => simp [openaiChatStream, h] at hv
    · cases v with
      | error er =>
        simp [anthropicChat, h] at hv
        exact ⟨_, hv.symm⟩
      | ok r => simp [anthropicChat, h] at hv
    · cases v with
      | error er =>
        simp [anthropicChatStream, h] at hv
        exact ⟨_, hv.symm⟩
      | ok r => simp [anthropicChatStream, h] at hv
    · cases hconv : geminiConvertMessages req.messages with
      | error m =>
        simp [geminiChat, h, hconv] at hv
        exact ⟨_, hv.symm⟩
      | ok c =>
        cases v with
        | error er =>
          simp [geminiChat, h, hconv] at hv
          exact ⟨_, hv.symm⟩
        | ok r => simp [geminiChat, h, hconv] at hv
    · cases hconv : geminiConvertMessages req.messages with
      | error m =>
        simp [geminiChatStream, h, hconv] at hv
        exact ⟨_, hv.symm⟩
      | ok c =>
        cases v with
        | error er =>
          simp [geminiChatStream, h, hconv] at hv
          exact ⟨_, hv.symm⟩
        | ok r => simp [geminiChatStream, h, hconv] at hv
  · intro m hm
    exact ⟨fun v => by simp [openaiChat, hm], fun v => by simp [openaiChatStream, hm],
      fun now v => by simp [anthropicChat, hm],
      fun cd mi sm v => by simp [anthropicChatStream, hm],
      fun g now cd v => by simp [geminiChat, hm],
      fun g now cd v => by simp [geminiChatStream, hm]⟩

/-- Witness for C5 (amended): a vendor failure on a valid request leaves
the OpenAI adapter as a structured error, and the empty-messages request
makes every adapter throw the same raw validation error. -/
theorem C5_amended_error_wrapping_witness :
    (∃ a, (JSError.structured (openaiHandleError rawBoom)) = .structured a) ∧
    (openaiChat reqEmptyMessages (.ok okOpenAIResp)).1
        = .error (.raw "Messages array cannot be empty") ∧
    (anthropicChat 0 reqEmptyMessages (.error rawBoom)).1
        = .error (.raw "Messages array cannot be empty") := by
  refine ⟨?_, ?_, ?_⟩
  · exact ((C5_amended_error_wrapping reqValid).1 rfl).1 (.error rawBoom) _ rfl
  · exact ((C5_amended_error_wrapping reqEmptyMessages).2 "Messages array cannot be empty" rfl).1 _
  · exact ((C5_amended_error_wrapping reqEmptyMessages).2 "Messages array cannot be empty" rfl).2.2.1 0 _

/-- An OpenAI vendor response carrying tool calls but native finish
reason `stop`. -/
def openaiRespToolStop : OpenAIResponse :=
  ⟨"r1", "gpt", [⟨⟨.assistant, none, some [⟨"t1", "function", ⟨"f", "\x7b\x7d"⟩⟩], none⟩, some .stop⟩], none, 0⟩

/-- Counterexample to C6.  The OpenAI adapter passes the vendor's native
finish reason through: a response whose normalized message carries
non-empty `tool_calls` can keep `finish_reason = stop`. -/
theorem C6_counterexample_openai_passthrough :
    (openaiNormalizeResponse openaiRespToolStop).message.tool_calls
        = some [⟨"t1", "function", ⟨"f", "\x7b\x7d"⟩⟩] ∧
    (openaiNormalizeResponse openaiRespToolStop).finish_reason = some .stop ∧
    some FinishReason.stop ≠ some FinishReason.tool_calls := by
  refine ⟨rfl, rfl, by decide⟩

/-- C6 as amended.  The Anthropic and Gemini adapters force
`finish_reason` to `tool_calls` whenever the normalized message carries
`tool_calls`, regardless of the vendor's native stop reason; the OpenAI
adapter instead passes the vendor's `finish_reason` through unchanged. -/
theorem C6_amended_finish_reason_forcing :
    (∀ now r l, (anthropicNormalizeResponse now r).message.tool_calls = some l →
      (anthropicNormalizeResponse now r).finish_reason = some .tool_calls) ∧
    (∀ genId now modelName r l,
      (geminiNormalizeResponse genId now modelName r).message.tool_calls = some l →
      (geminiNormalizeResponse genId now modelName r).finish_reason = some .tool_calls) ∧
    (∀ r, (openaiNormalizeResponse r).finish_reason
        = (r.choices.headD defaultOpenAIChoice).finish_reason) := by
  refine ⟨fun now r l h => ?_, fun g now m r l h => ?_, fun r => rfl⟩
  · by_cases hb : (r.content.filter AnthropicBlock.isToolUse).isEmpty
    · simp [anthropicNormalizeResponse, hb] at h
    · simp [anthropicNormalizeResponse, hb]
  · by_cases hb : ((geminiFirstCandidateParts r.candidates).filter
        fun p => p.functionCall.isSome).isEmpty
    · simp [geminiNormalizeResponse, hb] at h
    · simp [geminiNormalizeResponse, hb]

/-- An Anthropic vendor response whose only content block is a
`tool_use`, with native stop reason `end_turn`. -/
def anthropicRespTool : AnthropicResponse :=
  ⟨"a1", "claude", [.tool_use "tu1" "getWeather" (.obj [])], some "end_turn", ⟨1, 2⟩⟩

/-- Witness for C6 (amended): the Anthropic adapter forces `tool_calls`
on a response with a `tool_use` block even though the vendor reported
`end_turn`. -/
theorem C6_amended_finish_reason_forcing_witness :
    (anthropicNormalizeResponse 0 anthropicRespTool).finish_reason
      = some FinishReason.tool_calls :=
  C6_amended_finish_reason_forcing.1 0 anthropicRespTool
    (fromAnthropicResponse anthropicRespTool.content) rfl

/-! ### Shared validation (C8), tool round-trip (C9) and Gemini tool
handling (C10) -/

/-- C8.  Any request with an empty messages list, a temperature outside
`[0, 2]`, or `max_tokens < 1` is rejected by the shared validator, and
all three adapters' `chat` and `chatStream` throw the very same
validation error without entering the vendor phase (no SDK
initialization, no network interaction). -/
theorem C8_validation_before_network (req : ChatRequest)
    (h : req.messages = [] ∨ (∃ t, req.temperature = some t ∧ (t < 0 ∨ 2 < t)) ∨
         (∃ mt, req.max_tokens = some mt ∧ mt < 1)) :
    ∃ m, validateRequest req = some m ∧
      (∀ v, openaiChat req v = (.error (.raw m), false)) ∧
      (∀ v, openaiChatStream req v = (.error (.raw m), false)) ∧
      (∀ now v, anthropicChat now req v = (.error (.raw m), false)) ∧
      (∀ cd mi sm v, anthropicChatStream cd mi sm req v = (.error (.raw m), false)) ∧
      (∀ g now cd v, geminiChat g now cd req v = (.error (.raw m), false)) ∧
      (∀ g now cd v, geminiChatStream g now cd req v = (.error (.raw m), false)) := by
  have hv : ∃ m, validateRequest req = some m := by
    rcases h with h | ⟨t, ht, hlt⟩ | ⟨mt, hmt, hlt⟩
    · exact ⟨"Messages array cannot be empty", by simp [validateRequest, h]⟩
    · by_cases hm : req.messages.isEmpty
      · exact ⟨"Messages array cannot be empty", by simp [validateRequest, hm]⟩
      · have htmp : tempInvalid req = true := by
          simp only [tempInvalid, ht, Bool.or_eq_true, decide_eq_true_eq]
          exact hlt
        exact ⟨"Temperature must be between 0 and 2", by simp [validateRequest, hm, htmp]⟩
    · by_cases hm : req.messages.isEmpty
      · exact ⟨"Messages array cannot be empty", by simp [validateRequest, hm]⟩
      · by_cases htmp : tempInvalid req
        · exact ⟨"Temperature must be between 0 and 2", by simp [validateRequest, hm, htmp]⟩
        · have hmax : maxTokensInvalid req = true := by
            simp only [maxTokensInvalid, hmt, decide_eq_true_eq]
            exact hlt
          exact ⟨"max_tokens must be greater than 0", by simp [validateRequest, hm, htmp, hmax]⟩
  obtain ⟨m, hm⟩ := hv
  exact ⟨m, hm, fun v => by simp [openaiChat, hm], fun v => by simp [openaiChatStream, hm],
    fun now v => by simp [anthropicChat, hm],
    fun cd mi sm v => by simp [anthropicChatStream, hm],
    fun g now cd v => by simp [geminiChat, hm],
    fun g now cd v => by simp [geminiChatStream, hm]⟩

/-- Witness for C8 at the empty-messages request: OpenAI and Gemini both
throw the same raw validation error with the vendor phase never
entered. -/
theorem C8_validation_before_network_witness :
    openaiChat reqEmptyMessages (.ok okOpenAIResp)
      = (.error (.raw "Messages array cannot be empty"), false) ∧
    geminiChat "g" 0 none reqEmptyMessages (.error rawBoom)
      = (.error (.raw "Messages array cannot be empty"), false) := by
  obtain ⟨m, hm, h1, _, _, _, h5, _⟩ :=
    C8_validation_before_network reqEmptyMessages (Or.inl rfl)
  have hm2 : validateRequest reqEmptyMessages = some "Messages array cannot be empty" := rfl
  have hmm : m = "Messages array cannot be empty" := (Option.some.inj (hm2.symm.trans hm)).symm
  subst hmm
  exact ⟨h1 _, h5 "g" 0 none _⟩

/-- C9.  Encoding a tool definition with `toAnthropicTools` /
`toGeminiFunctionDeclarations` and decoding a synthetic vendor response
that invokes the encoded tool with `fromAnthropicResponse` /
`fromGeminiResponse` reproduces the original function name, and the
decoded `arguments` string is the JSON serialization of the invocation's
argument object (hence JSON-parseable). -/
theorem C9_tool_roundtrip (t : ToolDefinition) (blockId : String) (args : JsonVal) (now : Int) :
    ((toAnthropicTools [t]).map AnthropicTool.name = [t.function.name]) ∧
    (fromAnthropicResponse
        [AnthropicBlock.tool_use blockId
          ((toAnthropicTools [t]).headD ⟨"", "", t.function.parameters⟩).name args]
      = [⟨blockId, "function", ⟨t.function.name, stringify args⟩⟩]) ∧
    JsonParseable (stringify args) ∧
    ((toGeminiFunctionDeclarations [t]).map
        (fun env => env.functionDeclarations.map GeminiFunctionDeclaration.name)
      = [[t.function.name]]) ∧
    (fromGeminiResponse now
        [⟨none, some ⟨(((toGeminiFunctionDeclarations [t]).headD ⟨[]⟩).functionDeclarations.headD
            ⟨"", "", t.function.parameters⟩).name, args⟩⟩]
      = [⟨"call_" ++ toString now ++ "_" ++ toString 0, "function",
          ⟨t.function.name, stringify args⟩⟩]) := by
  exact ⟨rfl, rfl, ⟨args, rfl⟩, rfl, rfl⟩

/-- A Gemini vendor response whose single part is a `functionCall`. -/
def geminiRespFuncCall : GeminiResponse :=
  ⟨[⟨some ⟨some [⟨none, some ⟨"getWeather", .obj []⟩⟩]⟩, some "STOP"⟩], none⟩

/-- A tool-response message addressed to the Gemini adapter. -/
def toolMsg : Message := ⟨.tool, some "\x7b\x7d", some "getWeather", none, none, none⟩

/-- Counterexample to C10.  The Gemini adapter of `providers/gemini.ts`
does not ignore tools: a vendor `functionCall` part is normalized into
`tool_calls`, and a tool-response message is converted into a
`functionResponse` part rather than plain text. -/
theorem C10_counterexample_gemini_handles_tools :
    (geminiNormalizeResponse "g" 7 "m" geminiRespFuncCall).message.tool_calls
        = some [⟨"call_" ++ toString (7 : Int) ++ "_" ++ toString 0, "function",
            ⟨"getWeather", "\x7b\x7d"⟩⟩] ∧
    (geminiNormalizeResponse "g" 7 "m" geminiRespFuncCall).message.tool_calls ≠ none ∧
    geminiConvertOne [] toolMsg
        = .ok ⟨"user", [.functionResponse ⟨"getWeather", "\x7b\x7d"⟩]⟩ := by
  refine ⟨rfl, fun hcon => ?_, rfl⟩
  have h1 : (geminiNormalizeResponse "g" 7 "m" geminiRespFuncCall).message.tool_calls
      = some [⟨"call_" ++ toString (7 : Int) ++ "_" ++ toString 0, "function",
          ⟨"getWeather", "\x7b\x7d"⟩⟩] := rfl
  rw [h1] at hcon
  exact Option.noConfusion hcon

/-- C10 as amended.  The legacy (pre-tool) Gemini adapter behaves as the
claim describes — every converted content entry is a single text part
under role `user` or `model`, every non-assistant role (including `tool`)
is sent as `user`, and normalized responses and stream deltas never carry
`tool_calls` — but the tool-aware adapter of `providers/gemini.ts`
translates tools: tool-response messages become `functionResponse` parts,
assistant tool calls become `functionCall` parts, and vendor
`functionCall` parts are decoded into `tool_calls`. -/
theorem C10_amended_gemini_tool_handling :
    (∀ msgs c, c ∈ (geminiLegacyConvertMessages msgs).2 →
      (c.role = "user" ∨ c.role = "model") ∧ ∃ tOpt, c.parts = [GeminiReqPart.text tOpt]) ∧
    (∀ msgs m, m ∈ msgs → m.role ≠ Role.system → m.role ≠ Role.assistant →
      (GeminiReqContent.mk "user" [GeminiReqPart.text m.content])
        ∈ (geminiLegacyConvertMessages msgs).2) ∧
    (∀ genId now modelName r,
      (geminiLegacyNormalizeResponse genId now modelName r).message.tool_calls = none) ∧
    (∀ genId modelName i c,
      (geminiLegacyNormalizeStreamChunk genId modelName i c).delta.tool_calls = none) ∧
    (∀ tm msg out, msg.role = Role.tool → geminiConvertOne tm msg = .ok out →
      out.role = "user" ∧ ∃ fr, out.parts = [GeminiReqPart.functionResponse fr]) ∧
    (∀ tm msg out tcs, msg.role ≠ Role.tool → msg.tool_calls = some tcs →
      geminiConvertOne tm msg = .ok out →
      out.role = "model" ∧
        (tcs.map fun tc => GeminiReqPart.functionCall ⟨tc.function.name, tc.function.arguments⟩)
          <:+ out.parts) ∧
    (∀ genId now modelName r,
      ((geminiFirstCandidateParts r.candidates).filter (fun p => p.functionCall.isSome)) ≠ [] →
      (geminiNormalizeResponse genId now modelName r).message.tool_calls
        = some (fromGeminiResponse now (geminiFirstCandidateParts r.candidates))) := by
  refine ⟨fun msgs c hc => ?_, fun msgs m hm hsys hassist => ?_,
    fun genId now modelName r => rfl, fun genId modelName i c => rfl,
    fun tm msg out hrole hconv => ?_, fun tm msg out tcs hrole htcs hconv => ?_,
    fun genId now modelName r hne => ?_⟩
  · rcases List.mem_map.mp hc with ⟨m, _, rfl⟩
    constructor
    · by_cases ha : m.role = Role.assistant <;> simp [ha]
    · exact ⟨m.content, rfl⟩
  · have hmem : m ∈ msgs.filter fun q => q.role ≠ Role.system :=
      List.mem_filter.mpr ⟨hm, by simpa using hsys⟩
    have hgoal : (geminiLegacyConvertMessages msgs).2
        = (msgs.filter fun q => q.role ≠ Role.system).map
            (fun q => GeminiReqContent.mk (if q.role = Role.assistant then "model" else "user")
              [GeminiReqPart.text q.content]) := rfl
    rw [hgoal]
    refine List.mem_map.mpr ⟨m, hmem, ?_⟩
    simp only [if_neg hassist]
  · rw [geminiConvertOne] at hconv
    simp only [hrole, if_true] at hconv
    cases hlook : jsOrOptStr msg.name (msg.tool_call_id.bind fun i => tm.lookup i) with
    | none => rw [hlook] at hconv; exact Except.noConfusion hconv
    | some n =>
      rw [hlook] at hconv
      cases hconv
      exact ⟨rfl, ⟨_, rfl⟩⟩
  · rw [geminiConvertOne] at hconv
    simp only [hrole, if_false] at hconv
    rw [htcs] at hconv
    cases hconv
    exact ⟨rfl, List.suffix_append _ _⟩
  · have hb : ((geminiFirstCandidateParts r.candidates).filter
        fun p => p.functionCall.isSome).isEmpty = false := by
      simpa [List.isEmpty_iff] using hne
    simp [geminiNormalizeResponse, hb]

/-- Witness for C10 (amended) at concrete inputs: a tool-response message
converts to a `functionResponse` part, and a vendor `functionCall` part
is decoded into `tool_calls`. -/
theorem C10_amended_gemini_tool_handling_witness :
    ((GeminiReqContent.mk "user" [.functionResponse ⟨"getWeather", "\x7b\x7d"⟩]).role = "user" ∧
      ∃ fr, (GeminiReqContent.mk "user" [.functionResponse ⟨"getWeather", "\x7b\x7d"⟩]).parts
        = [GeminiReqPart.functionResponse fr]) ∧
    (geminiNormalizeResponse "g" 7 "m" geminiRespFuncCall).message.tool_calls
      = some (fromGeminiResponse 7 (geminiFirstCandidateParts geminiRespFuncCall.candidates)) := by
  refine ⟨?_, ?_⟩
  · exact C10_amended_gemini_tool_handling.2.2.2.2.1 [] toolMsg
      ⟨"user", [.functionResponse ⟨"getWeather", "\x7b\x7d"⟩]⟩ rfl rfl
  · exact C10_amended_gemini_tool_handling.2.2.2.2.2.2 "g" 7 "m" geminiRespFuncCall
      (by simp [geminiRespFuncCall, geminiFirstCandidateParts])

end AIIntegrator
